import Mathlib

/-!
Verification of the email-validation core of `Email_ValidatorApp` against its
natural-language specification.

The Python sources under `backend/validator/` are shallowly embedded below:
pure functions become Lean functions over `List Char` (Python `str`) and plain
structures (Python dicts); network effects (DNS answers, SMTP probe outcomes)
are passed in explicitly as oracle data; caches become association lists with
explicit `Nat` timestamps.  Python identifiers are kept except where the
verification style of this file prefers camelCase or a suffix clash forces a
synonym (noted in each doc comment).

Domain lists (`disposable_domains.txt`, `blacklist_domains.txt`,
`spamtrap_domains.txt`) are loaded from data files that are not part of the
source tree; per the specification they are injected immutable string sets, so
every embedded pipeline is parameterized over them.
-/

namespace EmailApp

/-! ### Python string primitives on `List Char` -/

/-- Python `str.lower()` restricted to the ASCII case mapping used by the
validator (all comparisons in the source are over ASCII email text). -/
def pyLower (s : List Char) : List Char := s.map Char.toLower

/-- Python `str.strip()`: remove leading and trailing whitespace. -/
def pyStrip (s : List Char) : List Char :=
  ((s.dropWhile Char.isWhitespace).reverse.dropWhile Char.isWhitespace).reverse

/-- Python `s.strip().lower()`, the normalization applied by every pipeline. -/
def pyNormalize (s : List Char) : List Char := pyLower (pyStrip s)

/-- Python `s.count(c)` for a single character. -/
def countChar (c : Char) (s : List Char) : Nat := s.count c

/-- Python `sub in s` (substring containment), as a Bool. -/
def containsSub (sub s : List Char) : Bool := decide (sub <:+: s)

/-- Python `c in s` for a single character. -/
def containsChar (c : Char) (s : List Char) : Bool := s.contains c

/-- The two-dot substring `".."`. -/
def twoDots : List Char := ['.', '.']

/-! ### Character classes used by the syntax regexes -/

/-- Special characters permitted in the local part by the source regex
`[a-zA-Z0-9!#$%&'*+/=?^_\x60\x7b|\x7d~-]` (shared by all three validators). -/
def localSpecials : List Char := "!#$%&'*+/=?^_\x60\x7b|\x7d~-".data

/-- Membership in the local-part atext character class. -/
def isAtext (c : Char) : Bool :=
  (c.isAlpha && c.toNat < 128) || c.isDigit || localSpecials.contains c

/-- ASCII letter or digit, the `[a-zA-Z0-9]` class of the domain regex. -/
def isAsciiAlnum (c : Char) : Bool := (c.isAlpha && c.toNat < 128) || c.isDigit

/-- ASCII letter, the `[a-zA-Z]` class of the strict validator's TLD regex. -/
def isAsciiAlpha (c : Char) : Bool := c.isAlpha && c.toNat < 128

/-- A dot-label of the domain regex `[a-zA-Z0-9](?:[a-zA-Z0-9-]*[a-zA-Z0-9])?`:
nonempty, alphanumeric at both ends, alphanumeric or hyphen inside. -/
def isDomainLabel (p : List Char) : Bool :=
  !p.isEmpty && p.all (fun c => isAsciiAlnum c || c == '-')
    && isAsciiAlnum (p.headD ' ') && isAsciiAlnum (p.getLastD ' ')

/-- The source local-part regex `^atom(?:\.atom)*$` where `atom = [atext]+`,
rendered via dot-splitting: every dot-separated part is a nonempty run of
atext characters. -/
def matchLocalPattern (l : List Char) : Bool :=
  (l.splitOn '.').all (fun p => !p.isEmpty && p.all isAtext)

/-- The source domain regex `^(?:label\.)+label$` rendered via dot-splitting:
at least two labels, each matching `isDomainLabel`. -/
def matchDomainPattern (d : List Char) : Bool :=
  let parts := d.splitOn '.'
  decide (2 ≤ parts.length) && parts.all isDomainLabel

/-- The strict validator's domain regex `^(?:label\.)+[a-zA-Z]{2,}$`: at least
two labels, all but the last matching `isDomainLabel`, the last being at
least two ASCII letters. -/
def matchStrictDomainPattern (d : List Char) : Bool :=
  let parts := d.splitOn '.'
  decide (2 ≤ parts.length) && parts.dropLast.all isDomainLabel
    && (parts.getLastD []).all isAsciiAlpha
    && decide (2 ≤ (parts.getLastD []).length)

/-! ### Syntax checkers

Three source variants: `check_rfc_syntax` (async_validator.py, textually
identical in multi_layer_check.py), `check_syntax_fast` (fast_validator.py)
and `validate_syntax` (strict_validator.py).  Names end in `Check` here. -/

/-- Result of a syntax check: validity flag, reason, local part, domain. -/
structure SyntaxRes where
  ok : Bool
  reason : String
  localPart : List Char
  domain : List Char
  deriving Repr, DecidableEq

/-- Embedding of `check_rfc_syntax` from `async_validator.py` lines 322-365
(the copy in `multi_layer_check.py` lines 100-147 is the same function with
slightly longer reason strings).  The Python API returns only (valid, reason);
the local/domain fields here are filled for the callers' later split. -/
def rfcSyntaxTail (email localPart domainPart : List Char) : SyntaxRes :=
  if localPart.isEmpty || 64 < localPart.length then ⟨false, "Invalid local part length", [], []⟩
  else if domainPart.isEmpty || 255 < domainPart.length then ⟨false, "Invalid domain length", [], []⟩
  else if containsSub twoDots email then ⟨false, "Consecutive dots not allowed", [], []⟩
  else if localPart.headD ' ' == '.' || localPart.getLastD ' ' == '.' then
    ⟨false, "Local part cannot start or end with dot", [], []⟩
  else if domainPart.headD ' ' == '.' || domainPart.getLastD ' ' == '.' then
    ⟨false, "Domain cannot start or end with dot", [], []⟩
  else if !matchLocalPattern localPart then ⟨false, "Invalid characters in local part", [], []⟩
  else if !matchDomainPattern domainPart then ⟨false, "Invalid domain format", [], []⟩
  else if ((domainPart.splitOn '.').getLastD []).length < 2 then ⟨false, "Invalid TLD", [], []⟩
  else if containsChar ' ' email then ⟨false, "Spaces not allowed", [], []⟩
  else ⟨true, "Valid syntax", localPart, domainPart⟩

/-- Entry point of `check_rfc_syntax`: the length and at-sign checks, then
the per-part checks of `rfcSyntaxTail` on the split halves. -/
def rfcSyntaxCheck (email : List Char) : SyntaxRes :=
  if email.isEmpty then ⟨false, "Empty or invalid email", [], []⟩
  else if 320 < email.length then ⟨false, "Email too long", [], []⟩
  else if countChar '@' email ≠ 1 then ⟨false, "Must contain exactly one @ symbol", [], []⟩
  else rfcSyntaxTail email (email.takeWhile (· ≠ '@')) ((email.dropWhile (· ≠ '@')).drop 1)

/-- Embedding of `check_syntax_fast` from `fast_validator.py` lines 187-228.
Same checks as `rfcSyntaxCheck` except: no trailing whitespace check, and the
local part and domain are returned on success. -/
def fastSyntaxTail (email localPart domain : List Char) : SyntaxRes :=
  if localPart.isEmpty || 64 < localPart.length then ⟨false, "Invalid local part", [], []⟩
  else if domain.isEmpty || 255 < domain.length then ⟨false, "Invalid domain", [], []⟩
  else if containsSub twoDots email || localPart.headD ' ' == '.' || localPart.getLastD ' ' == '.' then
    ⟨false, "Invalid dots", [], []⟩
  else if domain.headD ' ' == '.' || domain.getLastD ' ' == '.' then
    ⟨false, "Invalid domain dots", [], []⟩
  else if !matchLocalPattern localPart then ⟨false, "Invalid local characters", [], []⟩
  else if !matchDomainPattern domain then ⟨false, "Invalid domain format", [], []⟩
  else if ((domain.splitOn '.').getLastD []).length < 2 then ⟨false, "Invalid TLD", [], []⟩
  else ⟨true, "Valid", localPart, domain⟩

/-- Entry point of `check_syntax_fast`. -/
def fastSyntaxCheck (email : List Char) : SyntaxRes :=
  if email.isEmpty then ⟨false, "Empty or invalid email", [], []⟩
  else if 320 < email.length then ⟨false, "Email too long", [], []⟩
  else if countChar '@' email ≠ 1 then ⟨false, "Invalid @ symbol", [], []⟩
  else fastSyntaxTail email (email.takeWhile (· ≠ '@')) ((email.dropWhile (· ≠ '@')).drop 1)

/-- Embedding of `validate_syntax` from `strict_validator.py` lines 118-179.
Differences from the other two: the input is stripped first, there is an
extra leading/trailing-hyphen check on the domain, the domain regex requires
an alphabetic TLD, and local part and domain are lower-cased on success. -/
def strictSyntaxTail (email localPart domain : List Char) : SyntaxRes :=
  if localPart.isEmpty then ⟨false, "Empty local part", [], []⟩
  else if 64 < localPart.length then ⟨false, "Local part exceeds 64 characters", [], []⟩
  else if domain.isEmpty then ⟨false, "Empty domain", [], []⟩
  else if 255 < domain.length then ⟨false, "Domain exceeds 255 characters", [], []⟩
  else if containsSub twoDots email then ⟨false, "Consecutive dots not allowed", [], []⟩
  else if localPart.headD ' ' == '.' || localPart.getLastD ' ' == '.' then
    ⟨false, "Local part cannot start or end with dot", [], []⟩
  else if domain.headD ' ' == '.' || domain.getLastD ' ' == '.' then
    ⟨false, "Domain cannot start or end with dot", [], []⟩
  else if domain.headD ' ' == '-' || domain.getLastD ' ' == '-' then
    ⟨false, "Domain cannot start or end with hyphen", [], []⟩
  else if !matchLocalPattern localPart then ⟨false, "Invalid characters in local part", [], []⟩
  else if !matchStrictDomainPattern domain then ⟨false, "Invalid domain format", [], []⟩
  else if ((domain.splitOn '.').getLastD []).length < 2 then ⟨false, "Invalid TLD", [], []⟩
  else ⟨true, "Syntax valid", pyLower localPart, pyLower domain⟩

/-- The checks of `validate_syntax` applied after the input is stripped. -/
def strictSyntaxStripped (email : List Char) : SyntaxRes :=
  if 320 < email.length then ⟨false, "Email exceeds 320 characters", [], []⟩
  else if countChar '@' email ≠ 1 then ⟨false, "Must contain exactly one @ symbol", [], []⟩
  else strictSyntaxTail email (email.takeWhile (· ≠ '@')) ((email.dropWhile (· ≠ '@')).drop 1)

/-- Entry point of `validate_syntax`. -/
def strictSyntaxCheck (email0 : List Char) : SyntaxRes :=
  if email0.isEmpty then ⟨false, "Empty or invalid input", [], []⟩
  else strictSyntaxStripped (pyStrip email0)

/-! ### Score-to-grade maps (scoring.py and strict_validator.py) -/

/-- Embedding of `get_quality_grade` from `scoring.py` lines 151-170. -/
def get_quality_grade (score : Nat) : String :=
  if 90 ≤ score then "A"
  else if 75 ≤ score then "B"
  else if 60 ≤ score then "C"
  else if 45 ≤ score then "D"
  else "F"

/-- Embedding of `StrictEmailValidator._get_grade` from `strict_validator.py`
lines 947-960. -/
def strictGetGrade (score : Nat) : String :=
  if 90 ≤ score then "A+"
  else if 80 ≤ score then "A"
  else if 70 ≤ score then "B"
  else if 60 ≤ score then "C"
  else if 50 ≤ score then "D"
  else "F"

/-- Numeric rank of a grade letter, best = largest; used only to state
monotonicity of the two grade maps. -/
def gradeRank (g : String) : Nat :=
  if g = "A+" then 5
  else if g = "A" then 4
  else if g = "B" then 3
  else if g = "C" then 2
  else if g = "D" then 1
  else 0

/-! ### scoring.py: check-based score, verdict, and result enrichment -/

/-- The boolean check inputs of `calculate_score` in `scoring.py`. -/
structure ScoreChecks where
  syntax_valid : Bool := false
  domain_exists : Bool := false
  mx_valid : Bool := false
  is_disposable : Bool := false
  is_role_based : Bool := false
  is_blacklisted : Bool := false
  smtp_verified : Bool := false
  is_catch_all : Bool := false
  is_inbox_full : Bool := false
  is_disabled : Bool := false
  deriving Repr, DecidableEq

/-- Embedding of `calculate_score` from `scoring.py` lines 61-148 (weights 10,
15, 20, 10, 10, 15, 30; penalties -20, -10, -30; `MAX_RAW_SCORE = 110`).
Python normalizes with `int((raw / 110) * 100)` on floats and then clamps to
[0, 100]; since the clamp sends every non-positive raw score to 0, this is
rendered exactly as Nat floor division on the non-negative branch. -/
def calculate_score (c : ScoreChecks) : Nat :=
  let raw : Int :=
    (if c.syntax_valid then 10 else 0) + (if c.domain_exists then 15 else 0)
    + (if c.mx_valid then 20 else 0) + (if !c.is_disposable then 10 else 0)
    + (if !c.is_role_based then 10 else 0) + (if !c.is_blacklisted then 15 else 0)
    + (if c.smtp_verified then 30 else 0)
    + (if c.is_catch_all then -20 else 0) + (if c.is_inbox_full then -10 else 0)
    + (if c.is_disabled then -30 else 0)
  if raw ≤ 0 then 0 else min 100 (raw.toNat * 100 / 110)

/-- Embedding of `get_verdict` from `scoring.py` lines 173-190. -/
def get_verdict (score : Nat) (is_valid : Bool) : String :=
  if !is_valid then "INVALID"
  else if 70 ≤ score then "VALID"
  else if 45 ≤ score then "RISKY"
  else "INVALID"

/-! ### Shared result record of the fast and async pipelines

Both `fast_validator.FastEmailValidator._init_result` and
`async_validator.AsyncEmailValidator._validate_single` build result dicts
with the same keys (the fast variant adds `is_spamtrap`/`is_unverifiable`);
one record carries the union, with the source defaults. -/

structure VResult where
  email : List Char := []
  status : String := "invalid"
  reason : String := ""
  syntax_valid : String := "Not Valid"
  domain_valid : String := "Not Valid"
  mx_record_exists : String := "Not Valid"
  smtp_valid : String := "Not Valid"
  smtp_status : String := "not_checked"
  smtp_code : Nat := 0
  role_based : String := "No"
  disposable : String := "No"
  blacklist : String := "No"
  catch_all : String := "No"
  regex : String := "Not Valid"
  mx : String := "Not Valid"
  smtp : String := "Not Valid"
  is_valid : Bool := false
  is_deliverable : Bool := false
  is_safe_to_send : Bool := false
  has_inbox_full : Bool := false
  mx_accepts_mail : Bool := false
  is_inbox_full : Bool := false
  is_disabled : Bool := false
  is_unknown : Bool := false
  is_unverifiable : Bool := false
  is_catch_all : Bool := false
  is_disposable : Bool := false
  is_blacklisted : Bool := false
  is_role_based : Bool := false
  is_spamtrap : Bool := false
  deliverability_score : Nat := 0
  quality_grade : String := "F"
  verdict : String := "Invalid"
  deriving Repr, DecidableEq

/-- Embedding of `calculate_full_score` from `scoring.py` lines 193-233: adds
`deliverability_score`, `quality_grade` and `verdict` to a result; the
`status` field is read but never written. -/
def calculate_full_score (r : VResult) : VResult :=
  let checks : ScoreChecks :=
    { syntax_valid := r.syntax_valid = "Valid"
      domain_exists := r.domain_valid = "Valid"
      mx_valid := r.mx_record_exists = "Valid" || r.mx = "Valid"
      is_disposable := r.is_disposable
      is_role_based := r.is_role_based
      is_blacklisted := r.is_blacklisted
      smtp_verified := r.smtp_valid = "Valid" || r.smtp = "Valid"
      is_catch_all := r.is_catch_all
      is_inbox_full := r.is_inbox_full
      is_disabled := r.is_disabled }
  let score := calculate_score checks
  { r with
    deliverability_score := score
    quality_grade := get_quality_grade score
    verdict := get_verdict score (r.is_valid || r.status = "Valid") }

/-! ### scoring_engine.py: weighted score and score-threshold classifier -/

/-- Phase-1 dict of `scoring_engine.py` (syntax, disposable, blacklist, role);
`none` stands for a missing or empty (falsy) dict. -/
structure EngineP1 where
  syntax_valid : Bool := false
  is_disposable : Bool := false
  is_blacklisted : Bool := false
  is_role : Bool := false
  deriving Repr, DecidableEq

/-- Phase-2 dict of `scoring_engine.py` (DNS/MX). -/
structure EngineP2 where
  mx_exists : Bool := false
  deriving Repr, DecidableEq

/-- Phase-3 dict of `scoring_engine.py` (reputation). -/
structure EngineP3 where
  is_free_provider : Bool := false
  deriving Repr, DecidableEq

/-- Phase-4 dict of `scoring_engine.py` (SMTP). -/
structure EngineP4 where
  smtp_code : Nat := 0
  smtp_status : String := "not_checked"
  is_catch_all : Bool := false
  deriving Repr, DecidableEq

/-- Embedding of `calculate_score` from `scoring_engine.py` lines 20-68
(named apart from the scoring.py function of the same Python name). -/
def engineCalculateScore (p1 : Option EngineP1) (p2 : Option EngineP2)
    (p3 : Option EngineP3) (p4 : Option EngineP4) : Int :=
  let s1 : Int := match p1 with
    | none => 0
    | some q => (if q.syntax_valid then 20 else 0) + (if !q.is_disposable then 15 else 0)
        + (if q.is_blacklisted then -100 else 0) + (if q.is_role then -5 else 0)
  let s2 : Int := match p2 with
    | none => 0
    | some q => if q.mx_exists then 20 else 0
  let s3 : Int := match p3 with
    | none => 0
    | some q => if q.is_free_provider then 10 else 0
  let s4 : Int := match p4 with
    | none => 0
    | some q => (if q.smtp_code = 250 then 30
        else if q.smtp_code = 452 || q.smtp_code = 552 then 10 else 0)
        + (if q.is_catch_all then -10 else 0)
  max 0 (min 100 (s1 + s2 + s3 + s4))

/-- Embedding of `classify_status` from `scoring_engine.py` lines 70-168: the
score-threshold classifier.  It is defined in the source but has no caller in
the repository; it is embedded because claim C1 cites it. -/
def classify_status (score : Int) (p1 : Option EngineP1) (p2 : Option EngineP2)
    (p3 : Option EngineP3) (p4 : Option EngineP4) : String × String :=
  match p1 with
  | some q1 =>
    if !q1.syntax_valid then ("invalid", "invalid_syntax")
    else if q1.is_disposable then ("invalid", "disposable")
    else if q1.is_blacklisted then ("invalid", "blacklisted")
    else classifyAfterP1 score p1 p2 p3 p4
  | none => classifyAfterP1 score p1 p2 p3 p4
where
  /-- Continuation after the phase-1 hard failures. -/
  classifyAfterP1 (score : Int) (p1 : Option EngineP1) (p2 : Option EngineP2)
      (p3 : Option EngineP3) (p4 : Option EngineP4) : String × String :=
    match p2 with
    | some q2 =>
      if !q2.mx_exists then ("invalid", "no_mx")
      else classifySmtp score p1 p2 p3 p4
    | none => classifySmtp score p1 p2 p3 p4
  /-- The SMTP-based and fallback classification of `classify_status`. -/
  classifySmtp (score : Int) (p1 : Option EngineP1) (p2 : Option EngineP2)
      (p3 : Option EngineP3) (p4 : Option EngineP4) : String × String :=
    let tail : String × String :=
      if (p3.map (·.is_free_provider)).getD false
          && (p2.map (·.mx_exists)).getD false then
        if (p1.map (·.is_role)).getD false then ("risky", "role_account")
        else ("valid", "free_provider")
      else if (p1.map (·.is_role)).getD false then
        if 70 ≤ score then ("risky", "role_account") else ("invalid", "role_account")
      else if 90 ≤ score then ("valid", "high_quality")
      else if 70 ≤ score then ("risky", "medium_quality")
      else if 50 ≤ score then ("risky", "low_quality")
      else ("invalid", "low_score")
    match p4 with
    | none => tail
    | some q4 =>
      if q4.smtp_status = "timeout" || q4.smtp_status = "error" then
        ("unknown", q4.smtp_status)
      else if q4.smtp_status = "temporary" then ("unknown", "temporary")
      else if q4.smtp_status = "mailbox_not_found" then ("invalid", "mailbox_not_found")
      else if q4.smtp_status = "mailbox_full" then ("risky", "mailbox_full")
      else if q4.is_catch_all then ("risky", "catch_all")
      else if q4.smtp_status = "accepted" then
        if 90 ≤ score then ("valid", "mailbox_exists")
        else if 70 ≤ score then ("risky", "deliverable_low_score")
        else ("invalid", "low_quality")
      else tail

/-! ### multi_layer_check.py: the rule-based status resolver -/

/-- The slice of the `multi_layer_validate` result dict read by
`resolve_final_status`, together with the score fields assigned afterwards. -/
structure MLResult where
  syntax_valid : Bool := false
  syntax_reason : String := ""
  is_disposable : Bool := false
  mx_exists : Bool := false
  smtp_code : Nat := 0
  is_blacklisted : Bool := false
  is_catch_all : Bool := false
  has_inbox_full : Bool := false
  is_role_based : Bool := false
  smtp_timeout : Bool := false
  can_connect_smtp : Bool := true
  is_free_email : Bool := false
  status : String := "INVALID"
  reason : String := ""
  deliverability_score : Nat := 0
  quality_grade : String := "F"
  deriving Repr, DecidableEq

/-- Embedding of `resolve_final_status` from `multi_layer_check.py` lines
313-364: first-match priority rules over the check signals; the score fields
of the result dict are never consulted. -/
def resolve_final_status (r : MLResult) : String × String :=
  if !r.syntax_valid then ("INVALID", if r.syntax_reason = "" then "Invalid syntax" else r.syntax_reason)
  else if r.is_disposable then ("INVALID", "Disposable email address")
  else if !r.mx_exists then ("INVALID", "No mail server found")
  else if r.smtp_code = 550 || r.smtp_code = 551 || r.smtp_code = 553 then
    ("INVALID", "Mailbox does not exist")
  else if r.is_blacklisted then ("INVALID", "Blacklisted domain")
  else if r.is_catch_all then ("RISKY", "Catch-all domain (unverifiable)")
  else if r.has_inbox_full then ("RISKY", "Inbox full")
  else if r.is_role_based then ("RISKY", "Role-based address")
  else if r.smtp_timeout then ("NEUTRAL", "SMTP timeout - cannot verify")
  else if !r.can_connect_smtp && !r.is_free_email then ("NEUTRAL", "SMTP connection failed")
  else if r.smtp_code = 250 && !r.is_free_email then ("VALID", "Deliverable")
  else if r.is_free_email && r.mx_exists then ("VALID", "Deliverable (trusted provider)")
  else ("RISKY", "Unverifiable")

/-- Embedding of the final status/score assignment of `multi_layer_validate`
(`multi_layer_check.py` lines 550-572): the status comes from
`resolve_final_status` and the informational score is then derived from the
status alone (95/60/40/0 with grades A/C/D/F). -/
def mlFinalize (r : MLResult) : MLResult :=
  let st := resolve_final_status r
  let scored : Nat × String :=
    if st.1 = "VALID" then (95, "A")
    else if st.1 = "RISKY" then (60, "C")
    else if st.1 = "NEUTRAL" then (40, "D")
    else (0, "F")
  { r with status := st.1, reason := st.2
           deliverability_score := scored.1, quality_grade := scored.2 }

/-! ### fast_validator.py: sets, provider rules and the probe engine -/

/-- The `TRUSTED_PROVIDERS` frozenset of `fast_validator.py` lines 76-91. -/
def fastTrustedProviders : List (List Char) :=
  ["gmail.com".data, "googlemail.com".data, "google.com".data,
   "outlook.com".data, "hotmail.com".data, "live.com".data, "msn.com".data, "outlook.in".data,
   "hotmail.co.uk".data, "live.co.uk".data, "outlook.co.uk".data,
   "yahoo.com".data, "yahoo.co.uk".data, "yahoo.co.in".data, "yahoo.in".data,
   "ymail.com".data, "rocketmail.com".data, "yahoo.fr".data, "yahoo.de".data,
   "icloud.com".data, "me.com".data, "mac.com".data,
   "aol.com".data, "aim.com".data, "verizon.net".data,
   "protonmail.com".data, "proton.me".data, "pm.me".data, "protonmail.ch".data]

/-- The `ROLE_EMAILS` set shared verbatim by `fast_validator.py` lines 123-134
and `async_validator.py` lines 157-168. -/
def roleEmails : List (List Char) :=
  ["admin".data, "administrator".data, "root".data, "sysadmin".data, "webmaster".data,
   "hostmaster".data, "postmaster".data,
   "support".data, "help".data, "helpdesk".data, "service".data, "customer".data,
   "customerservice".data, "customersupport".data,
   "sales".data, "marketing".data, "info".data, "contact".data, "enquiry".data,
   "inquiry".data, "team".data,
   "billing".data, "accounts".data, "accounting".data, "finance".data, "payment".data,
   "payments".data, "invoice".data, "invoices".data,
   "office".data, "reception".data, "legal".data, "compliance".data, "privacy".data,
   "security".data,
   "noreply".data, "no-reply".data, "donotreply".data, "do-not-reply".data,
   "mailer-daemon".data,
   "abuse".data, "feedback".data, "press".data, "media".data, "news".data, "pr".data,
   "public".data,
   "hr".data, "jobs".data, "careers".data, "recruitment".data, "hiring".data,
   "apply".data, "application".data,
   "dev".data, "developer".data, "it".data, "tech".data, "technical".data,
   "engineering".data,
   "orders".data, "order".data, "shop".data, "store".data, "returns".data,
   "refunds".data, "reservations".data]

/-- The `disposable_patterns` tuple inside `check_disposable_fast`
(`fast_validator.py` lines 252-258). -/
def disposablePatterns : List (List Char) :=
  ["tempmail".data, "temp-mail".data, "tmpmail".data, "guerrilla".data, "mailinator".data,
   "throwaway".data, "disposable".data, "fakeinbox".data, "trashmail".data, "yopmail".data,
   "10minute".data, "10min".data, "minutemail".data, "sharklasers".data, "burnermail".data,
   "maildrop".data, "getairmail".data, "getnada".data, "emailondeck".data, "tempr".data,
   "spamgourmet".data, "mailnesia".data, "mytrashmail".data, "guerrillamail".data]

/-- The `spamtrap_patterns` tuple inside `check_spamtrap_fast`
(`fast_validator.py` line 284). -/
def spamtrapPatterns : List (List Char) :=
  ["spamtrap".data, "honeypot".data, "trap".data, "abuse".data, "blackhole".data]

/-- Python `'.'.join(parts)`. -/
def joinDots (parts : List (List Char)) : List Char := List.intercalate ['.'] parts

/-- Embedding of `check_disposable_fast` from `fast_validator.py` lines
231-264: exact membership, parent-domain suffix membership (indices
`range(1, len(parts) - 1)`), then name-fragment patterns; the disposable set
is injected. -/
def check_disposable_fast (dispSet : List (List Char)) (domain : List Char) : Bool :=
  dispSet.contains domain
  || (let parts := domain.splitOn '.'
      decide (2 < parts.length)
        && (List.range' 1 (parts.length - 2)).any
            (fun i => dispSet.contains (joinDots (parts.drop i))))
  || disposablePatterns.any (fun p => containsSub p (pyLower domain))

/-- Embedding of `check_blacklist_fast` from `fast_validator.py` lines
267-270 over an injected blacklist set. -/
def check_blacklist_fast (blSet : List (List Char)) (domain : List Char) : Bool :=
  blSet.contains domain

/-- Embedding of `check_spamtrap_fast` from `fast_validator.py` lines
273-290 over an injected spamtrap-domain set. -/
def check_spamtrap_fast (trapSet : List (List Char)) (email domain : List Char) : Bool :=
  trapSet.contains domain
  || spamtrapPatterns.any (fun p => containsSub p (pyLower email))

/-- Embedding of `check_role_fast` from `fast_validator.py` lines 293-297:
membership of the local part, or of the local part stripped of dots,
hyphens and underscores, in `ROLE_EMAILS`. -/
def check_role_fast (localPart : List Char) : Bool :=
  let normalized := localPart.filter (fun c => c ≠ '.' && c ≠ '-' && c ≠ '_')
  roleEmails.contains localPart || roleEmails.contains normalized

/-- Embedding of `is_trusted_provider` from `fast_validator.py` lines 300-302. -/
def is_trusted_provider (domain : List Char) : Bool :=
  fastTrustedProviders.contains domain

/-- Python `local_part.split('+')[0]`: the part before the first `+`. -/
def basePart (localPart : List Char) : List Char := localPart.takeWhile (· ≠ '+')

/-- Embedding of `validate_gmail_username` from `fast_validator.py` lines
305-337. -/
def validate_gmail_username (localPart : List Char) : Bool :=
  let base := basePart localPart
  let clean := base.filter (· ≠ '.')
  if clean.length < 6 || 30 < clean.length then false
  else if !clean.all isAsciiAlnum then false
  else if base.headD ' ' == '.' || base.getLastD ' ' == '.' then false
  else if containsSub twoDots base then false
  else true

/-- Embedding of `validate_yahoo_username` from `fast_validator.py` lines
340-363. -/
def validate_yahoo_username (localPart : List Char) : Bool :=
  let base := basePart localPart
  if base.length < 4 || 32 < base.length then false
  else if !isAsciiAlpha (base.headD ' ') then false
  else if !(pyLower base).all
      (fun c => "abcdefghijklmnopqrstuvwxyz0123456789_.".data.contains c) then false
  else true

/-- Embedding of `validate_outlook_username` from `fast_validator.py` lines
366-387. -/
def validate_outlook_username (localPart : List Char) : Bool :=
  let base := basePart localPart
  if base.length < 1 || 64 < base.length then false
  else if !isAsciiAlpha (base.headD ' ') then false
  else if !(pyLower base).all
      (fun c => "abcdefghijklmnopqrstuvwxyz0123456789._-".data.contains c) then false
  else true

/-- Network outcome of one SMTP probe attempt against one MX host, the
oracle datum consumed by the embedded probe engines: a connect timeout, a
refused connection, a command timeout, some other exception (with its
description), a sender-refused exception (strict validator only), or a
recipient response code with message text. -/
inductive ProbeOutcome where
  | connectTimeout
  | connectFailed
  | commandTimeout
  | otherError (detail : String)
  | senderRefusedErr (code : Nat) (msg : String)
  | response (code : Nat) (msg : String)
  deriving Repr, DecidableEq

/-- GREYLISTING_CODES of `fast_validator.py` line 61. -/
def greylistCodes : List Nat := [450, 451, 421]

/-- VALID_CODES of `fast_validator.py` line 64. -/
def fastValidCodes : List Nat := [250, 251]

/-- MAILBOX_FULL_CODES of `fast_validator.py` line 68. -/
def mailboxFullCodes : List Nat := [552, 422, 452]

/-- Result record of the fast SMTP verifier (`verify_smtp` return dict). -/
structure FastSmtpRes where
  valid : Bool := false
  status : String := ""
  code : Nat := 0
  greylisted : Bool := false
  deriving Repr, DecidableEq

/-- Substring containment between the `String` status fields, Python
`sub in status`. -/
def strContains (sub s : String) : Bool := containsSub sub.data s.data

/-- Embedding of `FastSMTPVerifier._interpret_code` from `fast_validator.py`
lines 643-689. -/
def fastInterpretCode (code : Nat) (msg : String) : FastSmtpRes :=
  let m := String.mk (pyLower msg.data)
  if fastValidCodes.contains code then ⟨true, "deliverable", code, false⟩
  else if code = 550 then
    if strContains "policy" m || strContains "blocked" m || strContains "spam" m
        || strContains "rejected" m then ⟨false, "policy_reject", code, false⟩
    else ⟨false, "mailbox_not_found", code, false⟩
  else if code = 551 then ⟨false, "user_not_local", code, false⟩
  else if code = 553 then ⟨false, "mailbox_unavailable", code, false⟩
  else if code = 554 then ⟨false, "mailbox_disabled", code, false⟩
  else if mailboxFullCodes.contains code then ⟨false, "inbox_full", code, false⟩
  else if greylistCodes.contains code then ⟨false, "temp_failure", code, true⟩
  else if code = 452 then
    if strContains "too many" m || strContains "rate" m then
      ⟨false, "rate_limited", code, false⟩
    else ⟨false, "inbox_full", code, false⟩
  else ⟨false, "code_" ++ toString code, code, false⟩

/-- Embedding of `FastSMTPVerifier._verify_single_mx` from
`fast_validator.py` lines 563-634, with the network exchange abstracted to a
`ProbeOutcome`. -/
def fastVerifySingleMx (o : ProbeOutcome) : FastSmtpRes :=
  match o with
  | .connectTimeout => ⟨false, "connect_timeout", 0, false⟩
  | .connectFailed => ⟨false, "connect_failed", 0, false⟩
  | .commandTimeout => ⟨false, "timeout", 0, false⟩
  | .otherError _ => ⟨false, "error", 0, false⟩
  | .senderRefusedErr _ _ => ⟨false, "error", 0, false⟩
  | .response code msg => fastInterpretCode code msg

/-- Embedding of `FastSMTPVerifier.verify_smtp` from `fast_validator.py`
lines 484-561 with `MAX_MX_HOSTS_TO_TRY = 1` (line 58), so the host loop runs
once; the probe outcomes are scripted and the returned `Nat` counts the probe
attempts performed.  After a greylisted first attempt whose retry is neither
positive nor greylisted, the source re-examines the *first* result
(`result`), not the retry, which is mirrored here. -/
def fastVerifySmtp (script : List ProbeOutcome) (retryGreylist : Bool)
    (mxHosts : List (List Char)) : FastSmtpRes × Nat :=
  if mxHosts.isEmpty then (⟨false, "no_mx", 0, false⟩, 0)
  else
    let r1 := fastVerifySingleMx (script.headD (.otherError "no outcome"))
    if fastValidCodes.contains r1.code then (r1, 1)
    else if [550, 551, 553, 554].contains r1.code then (r1, 1)
    else if greylistCodes.contains r1.code && retryGreylist then
      let r2 := fastVerifySingleMx ((script.drop 1).headD (.otherError "no outcome"))
      if fastValidCodes.contains r2.code then ({ r2 with greylisted := true }, 2)
      else if greylistCodes.contains r2.code then
        (⟨false, "greylisted", r2.code, true⟩, 2)
      else if ["connect_timeout", "connect_failed", "error"].contains r1.status then
        (r2, 2)
      else if 0 < r1.code then (r1, 2)
      else (r2, 2)
    else if ["connect_timeout", "connect_failed", "error"].contains r1.status then
      (r1, 1)
    else if 0 < r1.code then (r1, 1)
    else (r1, 1)

/-- Embedding of `FastSMTPVerifier.check_catchall` from `fast_validator.py`
lines 691-726 (cache cold): two random-local-part probes run with
`retry_greylisting=False`; the domain is catch-all iff both are accepted.
Returns the verdict and the probes consumed. -/
def fastCheckCatchall (script1 script2 : List ProbeOutcome)
    (mxHosts : List (List Char)) : Bool × Nat :=
  let t1 := fastVerifySmtp script1 false mxHosts
  let t2 := fastVerifySmtp script2 false mxHosts
  (t1.1.valid && t2.1.valid, t1.2 + t2.2)

/-- Oracle environment for one run of `FastEmailValidator._validate_single`:
the three injected domain sets, the MX resolution result for the address's
domain, and the scripted probe outcomes for the target address and the two
catch-all test addresses. -/
structure FastEnv where
  disposable : List (List Char) := []
  blacklist : List (List Char) := []
  spamtrap : List (List Char) := []
  mx : List (List Char) := []
  targetScript : List ProbeOutcome := []
  catchScript1 : List ProbeOutcome := []
  catchScript2 : List ProbeOutcome := []

/-- Base result of `_validate_single` after a successful syntax check: the
init dict of `_init_result` with the syntax and phase-1 flag fields set
(`fast_validator.py` lines 775-788). -/
def fastBase (env : FastEnv) (email localPart domain : List Char) : VResult :=
  { email := email, status := "invalid", syntax_valid := "Valid", regex := "Valid",
    disposable := if check_disposable_fast env.disposable domain then "Yes" else "No",
    is_disposable := check_disposable_fast env.disposable domain,
    blacklist := if check_blacklist_fast env.blacklist domain then "Yes" else "No",
    is_blacklisted := check_blacklist_fast env.blacklist domain,
    role_based := if check_role_fast localPart then "Yes" else "No",
    is_role_based := check_role_fast localPart }

/-- The base result once MX resolution succeeded (lines 819-822). -/
def fastMxBase (env : FastEnv) (email localPart domain : List Char) : VResult :=
  { fastBase env email localPart domain with domain_valid := "Valid", mx_record_exists := "Valid", mx := "Valid", mx_accepts_mail := true }

/-- The provider-specific username dispatch of the trusted-provider branch
(`fast_validator.py` lines 831-838). -/
def providerUsernameValid (domain localPart : List Char) : Bool :=
  if containsSub "gmail".data domain || containsSub "google".data domain then
    validate_gmail_username localPart
  else if containsSub "yahoo".data domain || containsSub "ymail".data domain then
    validate_yahoo_username localPart
  else if containsSub "outlook".data domain || containsSub "hotmail".data domain
      || containsSub "live".data domain then
    validate_outlook_username localPart
  else true

/-- The trusted-provider short-circuit branch (`fast_validator.py` lines
830-854): no probe, provider username rule, then `role`/`safe` or
`invalid`. -/
def fastTrustedBranch (env : FastEnv) (email localPart domain : List Char) : VResult × Nat :=
  if !providerUsernameValid domain localPart then
    (calculate_full_score { fastMxBase env email localPart domain with status := "invalid", reason := "Username does not meet provider rules" }, 0)
  else
    (calculate_full_score { fastMxBase env email localPart domain with status := if check_role_fast localPart then "role" else "safe", reason := if check_role_fast localPart then "Role-based email (admin@, info@, etc.)" else "Valid email address (provider does not allow SMTP verification)", is_valid := true, is_deliverable := true, is_safe_to_send := !check_role_fast localPart, smtp_status := "skipped_trusted_provider", smtp_valid := "Skipped", smtp := "Skipped (Free Provider)" }, 0)

/-- The SMTP-result interpretation of `_validate_single` (`fast_validator.py`
lines 858-933), parameterized by the verifier's result `s` and the probe
count `n` it consumed. -/
def fastSmtpStep (env : FastEnv) (email localPart domain : List Char)
    (s : FastSmtpRes) (n : Nat) : VResult × Nat :=
  if [550, 551, 553].contains s.code || strContains "not_found" s.status then
    (calculate_full_score { fastMxBase env email localPart domain with smtp_status := s.status, smtp_code := s.code, status := "invalid", reason := "Mailbox does not exist" }, n)
  else if s.code = 554 || strContains "disabled" s.status then
    (calculate_full_score { fastMxBase env email localPart domain with smtp_status := s.status, smtp_code := s.code, status := "disabled", reason := "Mailbox disabled by provider", is_disabled := true }, n)
  else if mailboxFullCodes.contains s.code || strContains "full" s.status
      || strContains "quota" s.status then
    (calculate_full_score { fastMxBase env email localPart domain with smtp_status := s.status, smtp_code := s.code, status := "inbox_full", reason := "Mailbox is full or quota exceeded", is_inbox_full := true, is_valid := true, has_inbox_full := true, smtp_valid := "Valid", smtp := "Valid" }, n)
  else if s.valid then
    if (fastCheckCatchall env.catchScript1 env.catchScript2 env.mx).1 then
      (calculate_full_score { fastMxBase env email localPart domain with smtp_status := s.status, smtp_code := s.code, smtp_valid := "Valid", smtp := "Valid", is_valid := true, is_deliverable := true, status := "catch_all", is_catch_all := true, catch_all := "Yes", reason := "Domain accepts all emails (catch-all)", is_safe_to_send := false }, n + (fastCheckCatchall env.catchScript1 env.catchScript2 env.mx).2)
    else
      (calculate_full_score { fastMxBase env email localPart domain with smtp_status := s.status, smtp_code := s.code, smtp_valid := "Valid", smtp := "Valid", is_valid := true, is_deliverable := true, status := if check_role_fast localPart then "role" else "safe", is_safe_to_send := !check_role_fast localPart, reason := if check_role_fast localPart then "Role-based email (admin@, info@, etc.)" else "Valid email address" }, n + (fastCheckCatchall env.catchScript1 env.catchScript2 env.mx).2)
  else if [450, 451].contains s.code || strContains "timeout" s.status
      || strContains "unavailable" s.status || strContains "connect" s.status
      || strContains "error" s.status then
    (calculate_full_score { fastMxBase env email localPart domain with smtp_status := s.status, smtp_code := s.code, status := "unknown", is_unknown := true, reason := "SMTP verification inconclusive (server did not respond)", smtp_valid := "Inconclusive", smtp := "Unknown" }, n)
  else
    (calculate_full_score { fastMxBase env email localPart domain with smtp_status := s.status, smtp_code := s.code, status := "unknown", is_unknown := true, reason := "SMTP verification could not be completed", smtp_valid := "Inconclusive", smtp := "Unknown" }, n)

/-- The phase-1/MX gate of `_validate_single` after a successful syntax check
(`fast_validator.py` lines 778-857): blacklist, spamtrap, disposable and
MX-empty early exits, then the trusted-provider branch or SMTP. -/
def fastAfterSyntax (env : FastEnv) (email localPart domain : List Char) : VResult × Nat :=
  if check_blacklist_fast env.blacklist domain then
    (calculate_full_score { fastBase env email localPart domain with status := "spamtrap", reason := "Blacklisted domain (potential spamtrap)", is_spamtrap := true }, 0)
  else if check_spamtrap_fast env.spamtrap email domain then
    (calculate_full_score { fastBase env email localPart domain with status := "spamtrap", reason := "Known spamtrap address", is_spamtrap := true }, 0)
  else if check_disposable_fast env.disposable domain then
    (calculate_full_score { fastBase env email localPart domain with status := "disposable", reason := "Disposable/temporary email" }, 0)
  else if env.mx.isEmpty then
    (calculate_full_score { fastBase env email localPart domain with status := "unknown", reason := "No mail server found", is_unknown := true }, 0)
  else if is_trusted_provider domain then
    fastTrustedBranch env email localPart domain
  else
    fastSmtpStep env email localPart domain (fastVerifySmtp env.targetScript false env.mx).1
      (fastVerifySmtp env.targetScript false env.mx).2

/-- Embedding of `FastEmailValidator._validate_single` from
`fast_validator.py` lines 761-933, staged through `fastAfterSyntax`.
Returns the enriched result and the number of SMTP probe attempts
performed. -/
def fastValidateSingle (env : FastEnv) (rawEmail : List Char) : VResult × Nat :=
  if !(fastSyntaxCheck (pyNormalize rawEmail)).ok then
    (calculate_full_score { email := pyNormalize rawEmail, status := "invalid", reason := (fastSyntaxCheck (pyNormalize rawEmail)).reason }, 0)
  else
    fastAfterSyntax env (pyNormalize rawEmail)
      (fastSyntaxCheck (pyNormalize rawEmail)).localPart
      (fastSyntaxCheck (pyNormalize rawEmail)).domain

/-! ### async_validator.py: probe engine, single validation, bulk batching -/

/-- The `TRUSTED_PROVIDERS` set of `async_validator.py` lines 49-63. -/
def asyncTrustedProviders : List (List Char) :=
  ["gmail.com".data, "googlemail.com".data,
   "outlook.com".data, "hotmail.com".data, "live.com".data, "msn.com".data, "outlook.in".data,
   "yahoo.com".data, "yahoo.co.uk".data, "yahoo.co.in".data, "yahoo.in".data,
   "ymail.com".data, "rocketmail.com".data,
   "icloud.com".data, "me.com".data, "mac.com".data,
   "aol.com".data, "aim.com".data,
   "protonmail.com".data, "proton.me".data, "pm.me".data,
   "zoho.com".data, "zohomail.com".data, "zoho.in".data,
   "fastmail.com".data, "fastmail.fm".data,
   "tutanota.com".data, "tutanota.de".data, "tuta.io".data,
   "gmx.com".data, "gmx.net".data, "gmx.de".data,
   "mail.com".data, "email.com".data,
   "yandex.com".data, "yandex.ru".data,
   "rediffmail.com".data]

/-- Embedding of `check_disposable` from `async_validator.py` lines 368-370
(plain membership, no suffix or pattern matching). -/
def asyncCheckDisposable (dispSet : List (List Char)) (domain : List Char) : Bool :=
  dispSet.contains (pyLower domain)

/-- Embedding of `check_blacklist` from `async_validator.py` lines 373-375. -/
def asyncCheckBlacklist (blSet : List (List Char)) (domain : List Char) : Bool :=
  blSet.contains (pyLower domain)

/-- Embedding of `is_role_based` from `async_validator.py` lines 378-382
(identical in `multi_layer_check.py` lines 223-227): dots and hyphens, but
not underscores, are stripped before the second lookup. -/
def is_role_based (email : List Char) : Bool :=
  let username := pyLower (email.takeWhile (· ≠ '@'))
  let normalized := username.filter (fun c => c ≠ '.' && c ≠ '-')
  roleEmails.contains username || roleEmails.contains normalized

/-- Return dict of `AsyncEmailValidator._check_smtp`. -/
structure AsyncSmtpRes where
  valid : Bool := false
  status : String := ""
  code : Nat := 0
  deriving Repr, DecidableEq

/-- The response-code interpretation of `AsyncEmailValidator._check_smtp`
(`async_validator.py` lines 533-551). -/
def asyncInterpretCode (code : Nat) : AsyncSmtpRes :=
  if code = 250 then ⟨true, "deliverable", code⟩
  else if code = 550 then ⟨false, "mailbox_not_found", code⟩
  else if code = 551 then ⟨false, "user_not_local", code⟩
  else if code = 552 then ⟨false, "inbox_full", code⟩
  else if code = 553 then ⟨false, "mailbox_name_invalid", code⟩
  else if code = 554 then ⟨false, "mailbox_disabled", code⟩
  else if [450, 451, 452].contains code then ⟨false, "temporary_failure", code⟩
  else if code = 421 then ⟨false, "service_unavailable", code⟩
  else ⟨false, "smtp_code_" ++ toString code, code⟩

/-- Host loop of `AsyncEmailValidator._check_smtp`: every timeout or
exception moves on to the next host; a recipient response (including an
`SMTPRecipientRefused` carrying its code) is interpreted and returned. -/
def asyncCheckSmtpGo : List (List Char) → List ProbeOutcome → Nat → AsyncSmtpRes × Nat
  | [], _, n => (⟨false, "connection_failed", 0⟩, n)
  | _ :: hs, script, n =>
    match script.headD (.otherError "no outcome") with
    | .response code _ => (asyncInterpretCode code, n + 1)
    | _ => asyncCheckSmtpGo hs (script.drop 1) (n + 1)

/-- Embedding of `AsyncEmailValidator._check_smtp` from `async_validator.py`
lines 469-567: tries the first two MX hosts (`mx_hosts[:2]`) and counts the
probe attempts performed. -/
def asyncCheckSmtp (script : List ProbeOutcome) (mxHosts : List (List Char)) :
    AsyncSmtpRes × Nat :=
  if mxHosts.isEmpty then (⟨false, "no_mx_records", 0⟩, 0)
  else asyncCheckSmtpGo (mxHosts.take 2) script 0

/-- Oracle environment for one run of
`AsyncEmailValidator._validate_single`: injected sets, the MX resolution for
the address's domain, and the scripted probe outcomes. -/
structure AsyncEnv where
  disposable : List (List Char) := []
  blacklist : List (List Char) := []
  mx : List (List Char) := []
  script : List ProbeOutcome := []

/-- Base result of `_validate_single` after a successful syntax check (the
init dict of `async_validator.py` lines 603-666 with the syntax and phase-1
flag fields set). -/
def asyncBase (env : AsyncEnv) (email domain : List Char) : VResult :=
  { email := email, status := "Invalid", syntax_valid := "Valid", regex := "Valid",
    disposable := if asyncCheckDisposable env.disposable domain then "Yes" else "No",
    is_disposable := asyncCheckDisposable env.disposable domain,
    blacklist := if asyncCheckBlacklist env.blacklist domain then "Yes" else "No",
    is_blacklisted := asyncCheckBlacklist env.blacklist domain,
    role_based := if is_role_based email then "Yes" else "No",
    is_role_based := is_role_based email }

/-- The base result once MX resolution succeeded (lines 677-679). -/
def asyncMxBase (env : AsyncEnv) (email domain : List Char) : VResult :=
  { asyncBase env email domain with domain_valid := "Valid", mx_record_exists := "Valid", mx := "Valid" }

/-- The SMTP-result interpretation of `_validate_single` (`async_validator.py`
lines 692-746), parameterized by the verifier's result `s` and probe count
`n`.  Note the final fall-through: with no confirmation, no definitive
rejection, and a non-trusted domain, the result keeps its initial
`"Invalid"` status (lines 739-746). -/
def asyncSmtpStep (env : AsyncEnv) (email domain : List Char)
    (s : AsyncSmtpRes) (n : Nat) : VResult × Nat :=
  if [550, 551, 553].contains s.code || strContains "mailbox_not_found" s.status then
    (calculate_full_score { asyncMxBase env email domain with smtp_status := s.status, smtp_code := s.code, mx_accepts_mail := true, reason := "Mailbox does not exist", status := "Invalid", smtp := "Not Valid" }, n)
  else if s.valid then
    (calculate_full_score { asyncMxBase env email domain with smtp_status := s.status, smtp_code := s.code, mx_accepts_mail := true, smtp_valid := "Valid", smtp := "Valid", is_deliverable := true, is_safe_to_send := !is_role_based email, status := if is_role_based email then "Role-Based" else "Valid", reason := if is_role_based email then "Role-based email" else "Deliverable", is_valid := true }, n)
  else if asyncTrustedProviders.contains domain then
    (calculate_full_score { asyncMxBase env email domain with smtp_status := s.status, smtp_code := s.code, mx_accepts_mail := true, status := if is_role_based email then "Role-Based" else "Valid", is_valid := true, is_deliverable := true, is_safe_to_send := !is_role_based email, smtp_valid := "Unknown", smtp := "Valid", reason := if is_role_based email then "Role-based email" else "Valid (Trusted Provider)", is_unknown := false }, n)
  else
    (calculate_full_score { asyncMxBase env email domain with smtp_status := s.status, smtp_code := s.code, mx_accepts_mail := true, verdict := "Invalid" }, n)

/-- The MX gate and known-bad-domain exits of `_validate_single`
(`async_validator.py` lines 668-693). -/
def asyncAfterSyntax (env : AsyncEnv) (email domain : List Char) : VResult × Nat :=
  if env.mx.isEmpty then
    (calculate_full_score { asyncBase env email domain with status := "Unknown", reason := "No mail server found", is_unknown := true }, 0)
  else if asyncCheckBlacklist env.blacklist domain then
    (calculate_full_score { asyncMxBase env email domain with status := "Blacklisted", reason := "Blacklisted domain" }, 0)
  else if asyncCheckDisposable env.disposable domain then
    (calculate_full_score { asyncMxBase env email domain with status := "Disposable", reason := "Disposable/temporary email" }, 0)
  else
    asyncSmtpStep env email domain (asyncCheckSmtp env.script env.mx).1
      (asyncCheckSmtp env.script env.mx).2

/-- Embedding of `AsyncEmailValidator._validate_single` from
`async_validator.py` lines 598-746, staged through `asyncAfterSyntax`.
Returns the enriched result and the number of SMTP probe attempts
performed. -/
def asyncValidateSingle (env : AsyncEnv) (rawEmail : List Char) : VResult × Nat :=
  if !(rfcSyntaxCheck (pyNormalize rawEmail)).ok then
    (calculate_full_score { email := pyNormalize rawEmail, status := "Invalid", reason := (rfcSyntaxCheck (pyNormalize rawEmail)).reason }, 0)
  else if !containsChar '@' (pyNormalize rawEmail) then
    (calculate_full_score { email := pyNormalize rawEmail, status := "Invalid", syntax_valid := "Valid", regex := "Valid", reason := "Invalid email format" }, 0)
  else
    asyncAfterSyntax env (pyNormalize rawEmail)
      (((pyNormalize rawEmail).dropWhile (· ≠ '@')).drop 1)

/-- First-occurrence deduplication, Python
`list(dict.fromkeys(...))`, written with a fuel argument so the recursion is
structural: each step strips at least the head, so `l.length` fuel always
suffices and the fuel-exhausted branch is unreachable at the entry point. -/
def pyDedupAux : Nat → List (List Char) → List (List Char)
  | _, [] => []
  | 0, l => l
  | fuel + 1, x :: xs => x :: pyDedupAux fuel (xs.filter (· ≠ x))

def pyDedup (l : List (List Char)) : List (List Char) :=
  pyDedupAux l.length l

/-- The normalize-filter-dedupe step shared by both bulk validators:
`list(dict.fromkeys(email.strip().lower() for email in emails if email.strip()))`. -/
def normalizeBatch (emails : List (List Char)) : List (List Char) :=
  pyDedup ((emails.filter (fun e => !(pyStrip e).isEmpty)).map pyNormalize)

/-- Chunking by `CHUNK_SIZE`, the slices `unique_emails[i:i+CHUNK_SIZE]` of
the async bulk loop, written with a fuel argument so the recursion is
structural: with a positive chunk size each step drops at least one element,
so `l.length` fuel always suffices. -/
def chunksOfAux : Nat → Nat → List α → List (List α)
  | _, _, [] => []
  | 0, _, l => [l]
  | fuel + 1, n, x :: xs => (x :: xs).take n :: chunksOfAux fuel n ((x :: xs).drop n)

def chunksOf (n : Nat) (l : List α) : List (List α) :=
  if n = 0 then [] else chunksOfAux l.length n l

/-- Embedding of `AsyncEmailValidator.validate_bulk` from
`async_validator.py` lines 748-804: dedupe, process in chunks of
`CHUNK_SIZE = 500`, and convert any exception raised by a single validation
into an `"Error"` result entry (the Python error entry carries only the
`email`/`status`/`reason`/`is_valid` keys; here the remaining fields hold the
record defaults).  The per-address validator is passed in as a fallible
function, exceptions being `Except.error`. -/
def asyncValidateBulk (f : List Char → Except String VResult)
    (emails : List (List Char)) : List VResult :=
  let unique := normalizeBatch emails
  ((chunksOf 500 unique).map (fun chunk => chunk.map (fun e =>
    match f e with
    | .error msg => { email := e, status := "Error", reason := msg, is_valid := false }
    | .ok r => r))).flatten

/-- Embedding of `FastEmailValidator._init_result` from `fast_validator.py`
lines 935-971: the Reoon-style default dict, which is exactly the field
defaults of `VResult` with the given address. -/
def fastInitResult (email : List Char) : VResult :=
  { email := email }

/-- The per-address error entry of `FastEmailValidator.validate_bulk`
(`fast_validator.py` lines 1014-1021).  The dict literal writes
`email` / `status: "Error"` / `reason: str(result)` / `is_valid: False`
first and unpacks `**self._init_result(unique_emails[i])` after them; in a
Python dict literal a later key wins, and `_init_result` supplies all four
of those keys again, so the unpacking overrides the literal entries and the
surviving dict is exactly `_init_result(email)`: status `"invalid"`, empty
reason, the exception message discarded (the `msg` argument records what the
literal tried, and is dropped, as in the source). -/
def fastBulkErrorEntry (email : List Char) (_msg : String) : VResult :=
  fastInitResult email

/-- Embedding of `FastEmailValidator.validate_bulk` from `fast_validator.py`
lines 973-1031: the same clean-and-dedupe step, one `validate_email` task
per unique address gathered with `return_exceptions=True` (no chunking in
this path), and each exception converted to the error entry above.  The
per-address validator is passed in as a fallible function, exceptions being
`Except.error`. -/
def fastValidateBulk (f : List Char → Except String VResult)
    (emails : List (List Char)) : List VResult :=
  (normalizeBatch emails).map (fun e =>
    match f e with
    | .error msg => fastBulkErrorEntry e msg
    | .ok r => r)

/-! ### strict_validator.py: strict SMTP ruleset and 4-stage pipeline -/

/-- The `ROLE_PREFIXES` set of `strict_validator.py` lines 100-105. -/
def strictRolePrefixes : List (List Char) :=
  ["admin".data, "administrator".data, "root".data, "postmaster".data, "hostmaster".data,
   "webmaster".data,
   "support".data, "help".data, "info".data, "contact".data, "sales".data, "marketing".data,
   "billing".data, "noreply".data, "no-reply".data, "donotreply".data, "abuse".data,
   "security".data,
   "hr".data, "jobs".data, "careers".data, "press".data, "media".data, "legal".data,
   "compliance".data]

/-- The `INBOX_FULL_KEYWORDS` frozenset of `strict_validator.py` lines 70-78. -/
def inboxFullKeywords : List String :=
  ["mailbox full", "quota exceeded", "over quota", "storage exceeded",
   "mailbox is full", "user over quota", "insufficient storage"]

/-- Return dict of `StrictSMTPVerifier._verify_single_mx`. -/
structure StrictSmtpRes where
  smtp_attempted : Bool := true
  smtp_code : Option Nat := none
  smtp_message : String := ""
  status : String := "NEUTRAL"
  reason : String := "SMTP verification pending"
  retry_recommended : Bool := false
  deriving Repr, DecidableEq

/-- Embedding of `StrictSMTPVerifier._interpret_response` from
`strict_validator.py` lines 553-629: 250 VALID; 452/552 (or an inbox-full
keyword in the message) RISKY; 450/451/421 NEUTRAL; 550/551/553/554 INVALID;
anything else NEUTRAL.  Returns (status, reason, retry_recommended). -/
def strictInterpretResponse (code : Nat) (msg : String) : String × String × Bool :=
  if code = 250 then ("VALID", "Email address is valid and deliverable", false)
  else if code = 452 || code = 552 then ("RISKY", "Mailbox full or quota exceeded", true)
  else if inboxFullKeywords.any (fun kw => strContains kw (String.mk (pyLower msg.data))) then
    ("RISKY", "Mailbox full or quota exceeded", true)
  else if code = 450 then ("NEUTRAL", "Mailbox unavailable (greylisted or temp fail)", true)
  else if code = 451 then ("NEUTRAL", "Local error in processing (greylisted)", true)
  else if code = 421 then ("NEUTRAL", "Service temporarily unavailable (throttled)", true)
  else if code = 550 then ("INVALID", "Mailbox does not exist", false)
  else if code = 551 then ("INVALID", "User not local", false)
  else if code = 553 then ("INVALID", "Mailbox name invalid", false)
  else if code = 554 then ("INVALID", "Mailbox disabled or transaction failed", false)
  else ("NEUTRAL", "Unknown SMTP response code: " ++ toString code, true)

/-- Embedding of `StrictSMTPVerifier._verify_single_mx` from
`strict_validator.py` lines 442-551, the network exchange abstracted to a
`ProbeOutcome`: every timeout, connect failure or unexpected error yields a
NEUTRAL result with `retry_recommended`; a sender-refused exception yields
NEUTRAL; a recipient response is interpreted by `strictInterpretResponse`. -/
def strictVerifySingleMx (o : ProbeOutcome) : StrictSmtpRes :=
  match o with
  | .connectTimeout =>
      { status := "NEUTRAL", reason := "SMTP connection timeout – server did not respond", retry_recommended := true }
  | .commandTimeout =>
      { status := "NEUTRAL", reason := "SMTP timeout – server did not respond", retry_recommended := true }
  | .connectFailed =>
      { status := "NEUTRAL", reason := "SMTP connection failed", retry_recommended := true }
  | .otherError name =>
      { status := "NEUTRAL", reason := "SMTP error: " ++ name, retry_recommended := true }
  | .senderRefusedErr code msg =>
      { smtp_code := some code, smtp_message := msg, status := "NEUTRAL", reason := "Sender refused by server (IP reputation issue)", retry_recommended := false }
  | .response code msg =>
      let i := strictInterpretResponse code msg
      { smtp_code := some code, smtp_message := msg, status := i.1, reason := i.2.1, retry_recommended := i.2.2 }

/-- Result record of `StrictEmailValidator` (`_init_result` defaults plus
the fields added by `_finalize_result`). -/
structure StrictResult where
  email : List Char := []
  stx : String := "invalid"
  domain : String := "invalid"
  mx : String := "invalid"
  smtp_attempted : Bool := false
  smtp_code : Option Nat := none
  status : String := "INVALID"
  reason : String := ""
  retry_recommended : Bool := false
  local_part : List Char := []
  domain_name : List Char := []
  mx_hosts : List (List Char) := []
  is_disposable : Bool := false
  is_blacklisted : Bool := false
  is_role_based : Bool := false
  is_valid : Bool := false
  is_deliverable : Bool := false
  is_risky : Bool := false
  is_neutral : Bool := false
  is_unknown : Bool := false
  is_inbox_full : Bool := false
  syntax_valid : String := "Not Valid"
  domain_valid : String := "Not Valid"
  mx_record_exists : String := "Not Valid"
  smtp_valid : String := "Not Valid"
  status_lowercase : String := "unknown"
  deliverability_score : Nat := 0
  quality_grade : String := "F"
  deriving Repr, DecidableEq

/-- Embedding of `StrictEmailValidator._calculate_score` from
`strict_validator.py` lines 918-945. -/
def strictCalculateScore (r : StrictResult) : Nat :=
  let raw : Int :=
    (if r.stx = "valid" then 20 else 0) + (if r.domain = "valid" then 20 else 0)
    + (if r.mx = "valid" then 20 else 0)
    + (if r.status = "VALID" then 40
       else if r.status = "RISKY" then 20
       else if r.status = "NEUTRAL" then 10 else 0)
    + (if r.is_disposable then -30 else 0) + (if r.is_blacklisted then -40 else 0)
    + (if r.is_role_based then -10 else 0)
  (max 0 (min 100 raw)).toNat

/-- Embedding of `StrictEmailValidator._finalize_result` from
`strict_validator.py` lines 866-916: legacy field mapping, the
role/disposable/blacklist overrides, then score and grade. -/
def strictFinalize (r0 : StrictResult) : StrictResult :=
  let st := r0.status
  let r1 : StrictResult := { r0 with is_valid := st = "VALID", is_deliverable := st = "VALID", is_risky := st = "RISKY", is_neutral := st = "NEUTRAL", is_unknown := st = "NEUTRAL", is_inbox_full := st = "RISKY" && strContains "full" (String.mk (pyLower r0.reason.data)), syntax_valid := if r0.stx = "valid" then "Valid" else "Not Valid", domain_valid := if r0.domain = "valid" then "Valid" else "Not Valid", mx_record_exists := if r0.mx = "valid" then "Valid" else "Not Valid", smtp_valid := if st = "VALID" then "Valid" else if st = "NEUTRAL" then "Unknown" else "Not Valid", status_lowercase := if st = "VALID" then "safe" else if st = "INVALID" then "invalid" else if st = "RISKY" then "risky" else if st = "NEUTRAL" then "unknown" else "unknown" }
  let r2 : StrictResult :=
    if r1.is_role_based && r1.status = "VALID" then
      { r1 with status := "VALID", reason := "Valid email (role-based address)" }
    else r1
  let r3 : StrictResult :=
    if r2.is_disposable then
      { r2 with status := "RISKY", reason := "Disposable email domain", is_risky := true }
    else r2
  let r4 : StrictResult :=
    if r3.is_blacklisted then
      { r3 with status := "RISKY", reason := "Blacklisted domain", is_risky := true }
    else r3
  let score := strictCalculateScore r4
  { r4 with deliverability_score := score, quality_grade := strictGetGrade score }

/-- Combined DNS answer of `StrictDNSResolver.check_domain_and_mx`
(`strict_validator.py` lines 215-263), driven by the raw oracle data: the MX
query answer (empty when the query failed or had no records) and whether an
A record exists. -/
structure StrictDns where
  domainStatus : String
  domainReason : String
  mxStatus : String
  mxReason : String
  mxHosts : List (List Char)
  deriving Repr, DecidableEq

/-- Embedding of the decision logic of `check_domain_and_mx`: the domain
exists if the MX or A lookup succeeded; a domain with an A record but no MX
is given itself as implicit MX host. -/
def strictDomainMx (domain : List Char) (mxAnswer : List (List Char)) (aExists : Bool) :
    StrictDns :=
  let mxFound := !mxAnswer.isEmpty
  let domainExists := mxFound || aExists || !mxAnswer.isEmpty
  if !domainExists then ⟨"invalid", "Domain does not exist", "invalid", "No MX records", []⟩
  else if mxAnswer.isEmpty then
    if aExists then ⟨"valid", "Domain exists", "valid", "MX records found", [domain]⟩
    else ⟨"valid", "Domain exists", "invalid", "No MX records", []⟩
  else ⟨"valid", "Domain exists", "valid", "MX records found", mxAnswer⟩

/-- Oracle environment for one run of `StrictEmailValidator.validate_email`. -/
structure StrictEnv where
  disposable : List (List Char) := []
  blacklist : List (List Char) := []
  mxAnswer : List (List Char) := []
  aExists : Bool := false
  probe : ProbeOutcome := .otherError "no outcome"

/-- Embedding of `StrictSMTPVerifier.verify` from `strict_validator.py`
lines 370-440 for the single-host path (the multi-host parallel race returns
one of the per-host results; the oracle supplies that winning outcome). -/
def strictVerify (o : ProbeOutcome) (mxHosts : List (List Char)) : StrictSmtpRes :=
  if mxHosts.isEmpty then
    { smtp_attempted := false, smtp_code := none, status := "INVALID", reason := "No MX hosts available", retry_recommended := false }
  else strictVerifySingleMx o

/-- The DNS gate and SMTP stage of `validate_email` after a successful
syntax check (`strict_validator.py` lines 693-731), parameterized by the
already-split local part and domain. -/
def strictAfterSyntax (env : StrictEnv) (email localPart domain : List Char) : StrictResult :=
  if (strictDomainMx domain env.mxAnswer env.aExists).domainStatus ≠ "valid" then
    strictFinalize { email := email, stx := "valid", domain := (strictDomainMx domain env.mxAnswer env.aExists).domainStatus, mx := (strictDomainMx domain env.mxAnswer env.aExists).mxStatus, status := "INVALID", reason := (strictDomainMx domain env.mxAnswer env.aExists).domainReason, smtp_attempted := false }
  else if (strictDomainMx domain env.mxAnswer env.aExists).mxStatus ≠ "valid" then
    strictFinalize { email := email, stx := "valid", domain := (strictDomainMx domain env.mxAnswer env.aExists).domainStatus, mx := (strictDomainMx domain env.mxAnswer env.aExists).mxStatus, status := "INVALID", reason := (strictDomainMx domain env.mxAnswer env.aExists).mxReason, smtp_attempted := false }
  else
    strictSmtpStage env email localPart domain
      (strictVerify env.probe (strictDomainMx domain env.mxAnswer env.aExists).mxHosts)
where
  /-- Stage 4: fold the SMTP verifier's result and the informational flags
  into the final record (`strict_validator.py` lines 711-731). -/
  strictSmtpStage (env : StrictEnv) (email localPart domain : List Char)
      (s : StrictSmtpRes) : StrictResult :=
    strictFinalize { email := email, stx := "valid", domain := (strictDomainMx domain env.mxAnswer env.aExists).domainStatus, mx := (strictDomainMx domain env.mxAnswer env.aExists).mxStatus, smtp_attempted := s.smtp_attempted, smtp_code := s.smtp_code, status := s.status, reason := s.reason, retry_recommended := s.retry_recommended, local_part := localPart, domain_name := domain, mx_hosts := (strictDomainMx domain env.mxAnswer env.aExists).mxHosts, is_disposable := env.disposable.contains domain, is_blacklisted := env.blacklist.contains domain, is_role_based := strictRolePrefixes.contains (basePart localPart) }

/-- Embedding of `StrictEmailValidator.validate_email` from
`strict_validator.py` lines 659-731: the 4-stage gated pipeline, staged
through `strictAfterSyntax`. -/
def strictValidateEmail (env : StrictEnv) (rawEmail : List Char) : StrictResult :=
  if !(strictSyntaxCheck (pyNormalize rawEmail)).ok then
    strictFinalize { email := pyNormalize rawEmail, stx := "invalid", status := "INVALID", reason := (strictSyntaxCheck (pyNormalize rawEmail)).reason, smtp_attempted := false }
  else
    strictAfterSyntax env (pyNormalize rawEmail)
      (strictSyntaxCheck (pyNormalize rawEmail)).localPart
      (strictSyntaxCheck (pyNormalize rawEmail)).domain

/-- Embedding of the exception branch of `StrictEmailValidator.validate_bulk`
(`strict_validator.py` lines 826-837): a raised exception is converted into a
finalized NEUTRAL result for that address. -/
def strictBulkErrorEntry (email : List Char) (msg : String) : StrictResult :=
  strictFinalize { email := email, status := "NEUTRAL", reason := "Validation error: " ++ msg, retry_recommended := true }

/-- Embedding of the result-collection loop of
`StrictEmailValidator.validate_bulk` over the deduplicated inputs; the
per-address validator is a fallible function as in `asyncValidateBulk`. -/
def strictValidateBulk (f : List Char → Except String StrictResult)
    (emails : List (List Char)) : List StrictResult :=
  (normalizeBatch emails).map (fun e =>
    match f e with
    | .error msg => strictBulkErrorEntry e msg
    | .ok r => r)

/-! ### async_validator.py MX cache (`MXCache`, `_resolve_mx`) -/

theorem calcFull_status (r : VResult) : (calculate_full_score r).status = r.status := rfl

theorem calcFull_reason (r : VResult) : (calculate_full_score r).reason = r.reason := rfl

theorem calcFull_smtp_status (r : VResult) :
    (calculate_full_score r).smtp_status = r.smtp_status := rfl

theorem calcFull_smtp_code (r : VResult) :
    (calculate_full_score r).smtp_code = r.smtp_code := rfl

theorem calcFull_is_catch_all (r : VResult) :
    (calculate_full_score r).is_catch_all = r.is_catch_all := rfl

/-! ## Claim theorems -/

/-- C10: the score-to-grade mapping is total (every score maps to one grade
in the five-letter set, with `A+` in the strict variant) and monotone: a
lower score never receives a better grade, in both `get_quality_grade`
(scoring.py) and `StrictEmailValidator._get_grade`. -/
theorem C10_grade_total_monotone (s1 s2 : Nat) :
    get_quality_grade s1 ∈ ["A", "B", "C", "D", "F"]
    ∧ strictGetGrade s1 ∈ ["A+", "A", "B", "C", "D", "F"]
    ∧ (s1 ≤ s2 →
        gradeRank (get_quality_grade s1) ≤ gradeRank (get_quality_grade s2)
        ∧ gradeRank (strictGetGrade s1) ≤ gradeRank (strictGetGrade s2)) := by
  refine ⟨?_, ?_, fun h => ⟨?_, ?_⟩⟩
  · unfold get_quality_grade
    split_ifs <;> simp
  · unfold strictGetGrade
    split_ifs <;> simp
  · unfold get_quality_grade
    split_ifs <;> first | decide | omega
  · unfold strictGetGrade
    split_ifs <;> first | decide | omega

/-- Witness for C10 at scores 50 and 80. -/
theorem C10_grade_total_monotone_witness :
    gradeRank (get_quality_grade 50) ≤ gradeRank (get_quality_grade 80)
    ∧ gradeRank (strictGetGrade 50) ≤ gradeRank (strictGetGrade 80) :=
  (C10_grade_total_monotone 50 80).2.2 (by decide)

/-- C1 counterexample: `classify_status` in scoring_engine.py consults the
score argument, so two results with identical check signals (syntax valid,
MX exists, SMTP accepted, no other flags) but different scores receive
different terminal statuses — refuting "the numeric score never changes the
terminal status" for that cited classifier. -/
theorem C1_score_counterexample :
    classify_status 95 (some { syntax_valid := true }) (some { mx_exists := true })
        none (some { smtp_code := 250, smtp_status := "accepted" })
      = ("valid", "mailbox_exists")
    ∧ classify_status 60 (some { syntax_valid := true }) (some { mx_exists := true })
        none (some { smtp_code := 250, smtp_status := "accepted" })
      = ("invalid", "low_quality")
    ∧ (classify_status 95 (some { syntax_valid := true }) (some { mx_exists := true })
        none (some { smtp_code := 250, smtp_status := "accepted" })).1
      ≠ (classify_status 60 (some { syntax_valid := true }) (some { mx_exists := true })
        none (some { smtp_code := 250, smtp_status := "accepted" })).1 := by
  refine ⟨rfl, rfl, ?_⟩
  decide

/-- C1 amended: in the wired classifier `resolve_final_status`
(multi_layer_check.py) the terminal status is determined solely by the
priority-ordered rules over the check signals: the score and grade fields of
the result are never consulted, so two results with identical check signals
receive identical statuses regardless of their scores, and the pipeline's
score is derived from the resulting status afterwards; `classify_status` in
scoring_engine.py (which no pipeline calls) does consult the score. -/
theorem C1_status_score_independent (r : MLResult) (s1 s2 : Nat) (g1 g2 : String) :
    resolve_final_status { r with deliverability_score := s1, quality_grade := g1 }
      = resolve_final_status { r with deliverability_score := s2, quality_grade := g2 }
    ∧ (mlFinalize { r with deliverability_score := s1, quality_grade := g1 }).status
      = (mlFinalize { r with deliverability_score := s2, quality_grade := g2 }).status
    ∧ (mlFinalize r).status = (resolve_final_status r).1 := by
  cases r
  exact ⟨rfl, rfl, rfl⟩


/-- Dropping a leading run of whitespace preserves the count of any
non-whitespace character. -/
theorem count_dropWhile_ws (c : Char) (hc : c.isWhitespace = false) (l : List Char) :
    (l.dropWhile Char.isWhitespace).count c = l.count c := by
  conv_rhs => rw [← List.takeWhile_append_dropWhile Char.isWhitespace l]
  rw [List.count_append]
  have h0 : (l.takeWhile Char.isWhitespace).count c = 0 := by
    rw [List.count_eq_zero]
    intro hmem
    have hb := List.mem_takeWhile_imp hmem
    rw [hc] at hb
    exact Bool.false_ne_true hb
  omega

/-- Python `str.strip` preserves the count of any non-whitespace character. -/
theorem count_pyStrip (c : Char) (hc : c.isWhitespace = false) (l : List Char) :
    (pyStrip l).count c = l.count c := by
  unfold pyStrip
  rw [List.count_reverse, count_dropWhile_ws c hc, List.count_reverse,
    count_dropWhile_ws c hc]

/-- Lower-casing never loses an `@`: every `@` is its own lower case. -/
theorem count_at_le_pyLower : ∀ l : List Char, l.count '@' ≤ (pyLower l).count '@' := by
  intro l
  induction l with
  | nil => exact Nat.le_refl _
  | cons a t ih =>
    simp only [pyLower, List.map_cons] at ih ⊢
    rw [List.count_cons, List.count_cons]
    by_cases h : a = '@'
    · subst h
      have hlow : Char.toLower '@' = '@' := by decide
      rw [hlow]
      have hself : ('@' == '@') = true := by decide
      rw [hself]
      simp only [if_true]
      omega
    · have hbeq : (a == '@') = false := by
        rw [beq_eq_false_iff_ne]
        exact h
      rw [hbeq]
      by_cases h2 : (Char.toLower a == '@') = true
      · rw [h2]
        simp only [if_true, if_false, Bool.false_eq_true]
        omega
      · rw [Bool.not_eq_true] at h2
        rw [h2]
        simp only [Bool.false_eq_true, if_false]
        omega

/-- A substring whose head is not whitespace survives `dropWhile
isWhitespace`. -/
theorem infix_dropWhile_ws (m : List Char) (hm : m ≠ [])
    (hh : Char.isWhitespace (m.headD ' ') = false) :
    ∀ l : List Char, m <:+: l → m <:+: l.dropWhile Char.isWhitespace := by
  intro l
  induction l with
  | nil => intro h; exact h
  | cons a t ih =>
    intro h
    rw [List.dropWhile_cons]
    by_cases hw : Char.isWhitespace a = true
    · simp only [hw, if_true]
      apply ih
      rcases List.infix_cons_iff.mp h with hpre | hinf
      · exfalso
        cases m with
        | nil => exact hm rfl
        | cons x m' =>
          have hxa : x = a := (List.cons_prefix_cons.mp hpre).1
          simp only [List.headD_cons] at hh
          rw [hxa, hw] at hh
          exact absurd hh (by decide)
      · exact hinf
    · rw [Bool.not_eq_true] at hw
      simp only [hw, Bool.false_eq_true, if_false]
      exact h

/-- The two-dot substring survives Python `strip`. -/
theorem twoDots_infix_pyStrip (l : List Char) (h : twoDots <:+: l) :
    twoDots <:+: pyStrip l := by
  have hm : twoDots ≠ [] := by decide
  have hh : Char.isWhitespace (twoDots.headD ' ') = false := by decide
  have hrev : twoDots.reverse = twoDots := by decide
  have hA : twoDots <:+: l.dropWhile Char.isWhitespace := infix_dropWhile_ws twoDots hm hh l h
  have hB : twoDots <:+: (l.dropWhile Char.isWhitespace).reverse := by
    have h2 : twoDots.reverse <:+: (l.dropWhile Char.isWhitespace).reverse :=
      List.reverse_infix.mpr hA
    rwa [hrev] at h2
  have hC : twoDots <:+: ((l.dropWhile Char.isWhitespace).reverse).dropWhile Char.isWhitespace :=
    infix_dropWhile_ws twoDots hm hh _ hB
  unfold pyStrip
  have h3 : twoDots.reverse
      <:+: (((l.dropWhile Char.isWhitespace).reverse).dropWhile Char.isWhitespace).reverse :=
    List.reverse_infix.mpr hC
  rwa [hrev] at h3

/-- The two-dot substring survives the pipelines' strip-and-lower
normalization. -/
theorem twoDots_infix_pyNormalize (l : List Char) (h : twoDots <:+: l) :
    twoDots <:+: pyNormalize l := by
  have hD : twoDots <:+: pyStrip l := twoDots_infix_pyStrip l h
  have hmap : twoDots.map Char.toLower = twoDots := by decide
  have hE := hD.map Char.toLower
  rw [hmap] at hE
  exact hE

/-- The `@` count can only stay or grow under the pipelines' strip-and-lower
normalization. -/
theorem countAt_pyNormalize_ge (l : List Char) :
    l.count '@' ≤ (pyNormalize l).count '@' := by
  unfold pyNormalize
  calc l.count '@' = (pyStrip l).count '@' := (count_pyStrip '@' (by decide) l).symm
    _ ≤ (pyLower (pyStrip l)).count '@' := count_at_le_pyLower (pyStrip l)


/-- Any input with two or more at-signs or a consecutive-dot pair is
rejected by `check_rfc_syntax`. -/
theorem rfcSyntaxCheck_not_ok (e : List Char)
    (h : 2 ≤ countChar '@' e ∨ containsSub twoDots e = true) :
    (rfcSyntaxCheck e).ok = false := by
  unfold rfcSyntaxCheck
  split
  · rfl
  split
  · rfl
  split
  · rfl
  rename_i h1 h2 h3
  rcases h with hc | hd
  · exfalso
    unfold countChar at h3 hc
    omega
  · unfold rfcSyntaxTail
    rw [hd]
    split
    · rfl
    split
    · rfl
    rfl

/-- Any input with two or more at-signs or a consecutive-dot pair is
rejected by `check_syntax_fast`. -/
theorem fastSyntaxCheck_not_ok (e : List Char)
    (h : 2 ≤ countChar '@' e ∨ containsSub twoDots e = true) :
    (fastSyntaxCheck e).ok = false := by
  unfold fastSyntaxCheck
  split
  · rfl
  split
  · rfl
  split
  · rfl
  rename_i h1 h2 h3
  rcases h with hc | hd
  · exfalso
    unfold countChar at h3 hc
    omega
  · unfold fastSyntaxTail
    rw [hd]
    split
    · rfl
    split
    · rfl
    rfl

/-- Auxiliary: an if-tower whose two sides have false `ok` has false `ok`. -/
theorem ok_ite (c : Prop) [Decidable c] (a b : SyntaxRes) (ha : a.ok = false)
    (hb : b.ok = false) : (if c then a else b).ok = false := by
  split
  · exact ha
  · exact hb

/-- Any input with two or more at-signs or a consecutive-dot pair is
rejected by `validate_syntax` (which checks the stripped input). -/
theorem strictSyntaxCheck_not_ok (e : List Char)
    (h : 2 ≤ countChar '@' e ∨ containsSub twoDots e = true) :
    (strictSyntaxCheck e).ok = false := by
  unfold strictSyntaxCheck
  split
  · rfl
  unfold strictSyntaxStripped
  split
  · rfl
  split
  · rfl
  rename_i h1 h2 h3
  rcases h with hc | hd
  · exfalso
    have hcs : countChar '@' (pyStrip e) = countChar '@' e := by
      unfold countChar
      exact count_pyStrip '@' (by decide) e
    rw [hcs] at h3
    unfold countChar at h3 hc
    omega
  · have hds : containsSub twoDots (pyStrip e) = true := by
      unfold containsSub
      exact decide_eq_true (twoDots_infix_pyStrip e (of_decide_eq_true hd))
    unfold strictSyntaxTail
    rw [hds]
    refine ok_ite _ _ _ rfl (ok_ite _ _ _ rfl (ok_ite _ _ _ rfl (ok_ite _ _ _ rfl ?_)))
    rw [if_pos rfl]


/-- C7: every input string with two or more `@` characters or a
consecutive-dot pair is rejected by all three syntax checkers
(`check_rfc_syntax`, `check_syntax_fast`, `validate_syntax`), and
consequently the terminal status is the syntax-rule invalid status in all
three pipelines — for the fast pipeline with exactly the syntax reason,
showing the syntax rule precedes every reputation rule. -/
theorem C7_syntax_rejects_double_at_and_dotdot (e : List Char)
    (h : 2 ≤ countChar '@' e ∨ containsSub twoDots e = true) :
    (rfcSyntaxCheck e).ok = false
    ∧ (fastSyntaxCheck e).ok = false
    ∧ (strictSyntaxCheck e).ok = false
    ∧ (∀ env : FastEnv, (fastValidateSingle env e).1.status = "invalid"
        ∧ (fastValidateSingle env e).1.reason = (fastSyntaxCheck (pyNormalize e)).reason)
    ∧ (∀ env : AsyncEnv, (asyncValidateSingle env e).1.status = "Invalid")
    ∧ (∀ env : StrictEnv, (strictValidateEmail env e).status = "INVALID") := by
  have hN : 2 ≤ countChar '@' (pyNormalize e) ∨ containsSub twoDots (pyNormalize e) = true := by
    rcases h with hc | hd
    · left
      have hg := countAt_pyNormalize_ge e
      unfold countChar at hc ⊢
      omega
    · right
      unfold containsSub at hd ⊢
      exact decide_eq_true (twoDots_infix_pyNormalize e (of_decide_eq_true hd))
  have hsf : (fastSyntaxCheck (pyNormalize e)).ok = false := fastSyntaxCheck_not_ok _ hN
  have hsr : (rfcSyntaxCheck (pyNormalize e)).ok = false := rfcSyntaxCheck_not_ok _ hN
  have hss : (strictSyntaxCheck (pyNormalize e)).ok = false := strictSyntaxCheck_not_ok _ hN
  refine ⟨rfcSyntaxCheck_not_ok e h, fastSyntaxCheck_not_ok e h,
    strictSyntaxCheck_not_ok e h, ?_, ?_, ?_⟩
  · intro env
    constructor
    · unfold fastValidateSingle
      rw [hsf]
      rfl
    · unfold fastValidateSingle
      rw [hsf]
      rfl
  · intro env
    unfold asyncValidateSingle
    rw [hsr]
    rfl
  · intro env
    unfold strictValidateEmail
    rw [hss]
    rfl

/-- Witness for C7 at the concrete input `"a@@b.com"`. -/
theorem C7_syntax_rejects_double_at_and_dotdot_witness :
    (rfcSyntaxCheck "a@@b.com".data).ok = false
    ∧ (fastSyntaxCheck "a@@b.com".data).ok = false
    ∧ (fastValidateSingle {} "a@@b.com".data).1.status = "invalid"
    ∧ (asyncValidateSingle {} "a@@b.com".data).1.status = "Invalid"
    ∧ (strictValidateEmail {} "a@@b.com".data).status = "INVALID" :=
  ⟨(C7_syntax_rejects_double_at_and_dotdot "a@@b.com".data (Or.inl (by decide))).1,
   (C7_syntax_rejects_double_at_and_dotdot "a@@b.com".data (Or.inl (by decide))).2.1,
   ((C7_syntax_rejects_double_at_and_dotdot "a@@b.com".data (Or.inl (by decide))).2.2.2.1 {}).1,
   (C7_syntax_rejects_double_at_and_dotdot "a@@b.com".data (Or.inl (by decide))).2.2.2.2.1 {},
   (C7_syntax_rejects_double_at_and_dotdot "a@@b.com".data (Or.inl (by decide))).2.2.2.2.2 {}⟩


/-- Reduce an if over a Bool condition known true. -/
theorem if_bool_true {α : Sort u_1} {c : Bool} (h : c = true) (a b : α) :
    (if c = true then a else b) = a := by
  rw [h]
  exact if_pos rfl

/-- Reduce an if over a Bool condition known false. -/
theorem if_bool_false {α : Sort u_1} {c : Bool} (h : c = false) (a b : α) :
    (if c = true then a else b) = b := by
  rw [h]
  exact if_neg Bool.false_ne_true

/-- C2 counterexample: in the cited fast validator, a syntactically valid
address whose domain resolves to no MX hosts gets terminal status
`"unknown"` (reason "No mail server found"), not `"invalid"` as the claim
states. -/
theorem C2_no_mx_counterexample :
    (fastValidateSingle {} "user@nonexistent-domain-xyz123.test".data).1.status = "unknown"
    ∧ (fastValidateSingle {} "user@nonexistent-domain-xyz123.test".data).1.reason
      = "No mail server found"
    ∧ (fastValidateSingle {} "user@nonexistent-domain-xyz123.test".data).1.status ≠ "invalid"
    ∧ (asyncValidateSingle {} "user@nonexistent-domain-xyz123.test".data).1.status = "Unknown" := by
  refine ⟨rfl, rfl, by decide, rfl⟩

/-- C2 amended: a syntactically valid address (not caught by the
blacklist/spamtrap/disposable exits) whose domain has no resolvable MX gets
status `"unknown"`/"Unknown" with reason "No mail server found" in the fast
and async validators; the strict validator reports `"INVALID"` (reason
"Domain does not exist") for a domain with neither MX nor A records. -/
theorem C2_no_mx_status (env : FastEnv) (enva : AsyncEnv) (envs : StrictEnv) (e ea es : List Char) :
    ((fastSyntaxCheck (pyNormalize e)).ok = true →
      check_blacklist_fast env.blacklist (fastSyntaxCheck (pyNormalize e)).domain = false →
      check_spamtrap_fast env.spamtrap (pyNormalize e) (fastSyntaxCheck (pyNormalize e)).domain = false →
      check_disposable_fast env.disposable (fastSyntaxCheck (pyNormalize e)).domain = false →
      env.mx = [] →
      (fastValidateSingle env e).1.status = "unknown"
      ∧ (fastValidateSingle env e).1.reason = "No mail server found"
      ∧ (fastValidateSingle env e).1.is_unknown = true)
    ∧ ((rfcSyntaxCheck (pyNormalize ea)).ok = true →
      containsChar '@' (pyNormalize ea) = true →
      enva.mx = [] →
      (asyncValidateSingle enva ea).1.status = "Unknown"
      ∧ (asyncValidateSingle enva ea).1.reason = "No mail server found")
    ∧ ((strictSyntaxCheck (pyNormalize es)).ok = true →
      envs.mxAnswer = [] → envs.aExists = false →
      (strictValidateEmail envs es).status = "INVALID"
      ∧ (strictValidateEmail envs es).reason = "Domain does not exist") := by
  refine ⟨?_, ?_, ?_⟩
  · intro hok hbl htrap hdisp hmx
    unfold fastValidateSingle
    rw [hok]
    unfold fastAfterSyntax
    rw [if_bool_false (show (!true) = false from rfl), if_bool_false hbl,
      if_bool_false htrap, if_bool_false hdisp, hmx]
    exact ⟨rfl, rfl, rfl⟩
  · intro hok hat hmx
    unfold asyncValidateSingle
    rw [hok, hat]
    unfold asyncAfterSyntax
    rw [if_bool_false (show (!true) = false from rfl),
      if_bool_false (show (!true) = false from rfl), hmx]
    exact ⟨rfl, rfl⟩
  · intro hok hmx ha
    unfold strictValidateEmail
    rw [hok]
    unfold strictAfterSyntax
    rw [if_bool_false (show (!true) = false from rfl), hmx, ha]
    exact ⟨rfl, rfl⟩

/-- Witness for C2 amended with empty oracle environments. -/
theorem C2_no_mx_status_witness :
    (fastValidateSingle {} "bob@acme-widgets.example".data).1.status = "unknown"
    ∧ (asyncValidateSingle {} "bob@acme-widgets.example".data).1.status = "Unknown"
    ∧ (strictValidateEmail {} "bob@acme-widgets.example".data).status = "INVALID" :=
  ⟨((C2_no_mx_status {} {} {} "bob@acme-widgets.example".data
      "bob@acme-widgets.example".data "bob@acme-widgets.example".data).1
      (by decide) (by decide) (by decide) (by decide) rfl).1,
   ((C2_no_mx_status {} {} {} "bob@acme-widgets.example".data
      "bob@acme-widgets.example".data "bob@acme-widgets.example".data).2.1
      (by decide) (by decide) rfl).1,
   ((C2_no_mx_status {} {} {} "bob@acme-widgets.example".data
      "bob@acme-widgets.example".data "bob@acme-widgets.example".data).2.2
      (by decide) rfl rfl).1⟩


/-- C3 counterexample: in the cited async validator, a probe that only times
out (no protocol response) against a non-trusted domain leaves the terminal
status at its initial `"Invalid"` — the claim says such results are never
classified invalid. -/
theorem C3_connect_failure_counterexample :
    (asyncValidateSingle { mx := ["mx1.acme-widgets.com".data], script := [.connectTimeout] }
        "bob@acme-widgets.com".data).1.status = "Invalid"
    ∧ (asyncValidateSingle { mx := ["mx1.acme-widgets.com".data], script := [.connectTimeout] }
        "bob@acme-widgets.com".data).1.smtp_status = "connection_failed"
    ∧ (asyncValidateSingle { mx := ["mx1.acme-widgets.com".data], script := [.connectTimeout] }
        "bob@acme-widgets.com".data).1.is_unknown = false := by
  exact ⟨rfl, rfl, rfl⟩

/-- C3 amended: a connect failure or timeout yields NEUTRAL (with a retry
recommendation) in the strict verifier and `"unknown"` in the fast
validator, never a rejection; but in the async validator the same situation
for a non-trusted domain falls through with the initial `"Invalid"`
status. -/
theorem C3_timeout_classification :
    (∀ o : ProbeOutcome,
      o = .connectTimeout ∨ o = .connectFailed ∨ o = .commandTimeout →
      (strictVerifySingleMx o).status = "NEUTRAL"
      ∧ (strictVerifySingleMx o).retry_recommended = true)
    ∧ (∀ (env : FastEnv) (e : List Char),
      (fastSyntaxCheck (pyNormalize e)).ok = true →
      check_blacklist_fast env.blacklist (fastSyntaxCheck (pyNormalize e)).domain = false →
      check_spamtrap_fast env.spamtrap (pyNormalize e) (fastSyntaxCheck (pyNormalize e)).domain = false →
      check_disposable_fast env.disposable (fastSyntaxCheck (pyNormalize e)).domain = false →
      env.mx.isEmpty = false →
      is_trusted_provider (fastSyntaxCheck (pyNormalize e)).domain = false →
      (env.targetScript.headD (ProbeOutcome.otherError "no outcome") = ProbeOutcome.connectTimeout
        ∨ env.targetScript.headD (ProbeOutcome.otherError "no outcome") = ProbeOutcome.connectFailed
        ∨ env.targetScript.headD (ProbeOutcome.otherError "no outcome") = ProbeOutcome.commandTimeout) →
      (fastValidateSingle env e).1.status = "unknown"
      ∧ (fastValidateSingle env e).1.is_unknown = true)
    ∧ (∀ (env : AsyncEnv) (e : List Char),
      (rfcSyntaxCheck (pyNormalize e)).ok = true →
      containsChar '@' (pyNormalize e) = true →
      env.mx.isEmpty = false →
      asyncCheckBlacklist env.blacklist (((pyNormalize e).dropWhile (· ≠ '@')).drop 1) = false →
      asyncCheckDisposable env.disposable (((pyNormalize e).dropWhile (· ≠ '@')).drop 1) = false →
      asyncTrustedProviders.contains (((pyNormalize e).dropWhile (· ≠ '@')).drop 1) = false →
      (asyncCheckSmtp env.script env.mx).1 = ⟨false, "connection_failed", 0⟩ →
      (asyncValidateSingle env e).1.status = "Invalid") := by
  refine ⟨?_, ?_, ?_⟩
  · intro o ho
    rcases ho with h | h | h <;> subst h <;> exact ⟨rfl, rfl⟩
  · intro env e hok hbl htrap hdisp hmxe htr ho
    have hV : fastVerifySmtp env.targetScript false env.mx
        = (fastVerifySingleMx (env.targetScript.headD (ProbeOutcome.otherError "no outcome")), 1) := by
      rcases ho with hh | hh | hh <;>
        · unfold fastVerifySmtp
          rw [if_bool_false hmxe, hh]
          rfl
    unfold fastValidateSingle
    rw [hok]
    unfold fastAfterSyntax
    rw [if_bool_false (show (!true) = false from rfl), if_bool_false hbl,
      if_bool_false htrap, if_bool_false hdisp, if_bool_false hmxe, if_bool_false htr, hV]
    rcases ho with hh | hh | hh <;> rw [hh] <;> exact ⟨rfl, rfl⟩
  · intro env e hok hat hmxe hbl hdisp htr hsm
    unfold asyncValidateSingle
    rw [hok, hat]
    unfold asyncAfterSyntax
    rw [if_bool_false (show (!true) = false from rfl),
      if_bool_false (show (!true) = false from rfl), if_bool_false hmxe,
      if_bool_false hbl, if_bool_false hdisp, hsm]
    unfold asyncSmtpStep
    split
    · rename_i hcond
      exact absurd hcond (by decide)
    split
    · rename_i h1 h2
      exact absurd h2 (by decide)
    split
    · rename_i h1 h2 h3
      rw [htr] at h3
      exact absurd h3 Bool.false_ne_true
    rfl

/-- Witness for C3 amended at concrete probes and environments. -/
theorem C3_timeout_classification_witness :
    ((strictVerifySingleMx .connectTimeout).status = "NEUTRAL"
      ∧ (strictVerifySingleMx .connectTimeout).retry_recommended = true)
    ∧ ((fastValidateSingle { mx := ["mx.acme-widgets.example".data], targetScript := [.connectTimeout] }
        "bob@acme-widgets.example".data).1.status = "unknown"
      ∧ (fastValidateSingle { mx := ["mx.acme-widgets.example".data], targetScript := [.connectTimeout] }
        "bob@acme-widgets.example".data).1.is_unknown = true)
    ∧ (asyncValidateSingle { mx := ["mx.acme-widgets.example".data], script := [.commandTimeout] }
        "bob@acme-widgets.example".data).1.status = "Invalid" :=
  ⟨C3_timeout_classification.1 .connectTimeout (Or.inl rfl),
   C3_timeout_classification.2.1
     { mx := ["mx.acme-widgets.example".data], targetScript := [.connectTimeout] }
     "bob@acme-widgets.example".data
     (by decide) (by decide) (by decide) (by decide) rfl (by decide) (Or.inl rfl),
   C3_timeout_classification.2.2
     { mx := ["mx.acme-widgets.example".data], script := [.commandTimeout] }
     "bob@acme-widgets.example".data
     (by decide) (by decide) rfl (by decide) (by decide) (by decide) rfl⟩


/-- C4 counterexample: as wired, `_validate_single` calls `verify_smtp` with
`retry_greylisting=False`, so a greylisted (450) first response gets no
retry at all — a single probe is consumed even though a retry would have
answered 250 — and the status becomes `"unknown"`; with the retry flag
enabled the same script yields a deliverable result after two probes. -/
theorem C4_greylist_no_retry_counterexample :
    (fastValidateSingle { mx := ["mx.acme-widgets.example".data], targetScript := [.response 450 "greylisted", .response 250 "ok"] }
        "bob@acme-widgets.example".data).2 = 1
    ∧ (fastValidateSingle { mx := ["mx.acme-widgets.example".data], targetScript := [.response 450 "greylisted", .response 250 "ok"] }
        "bob@acme-widgets.example".data).1.status = "unknown"
    ∧ (fastVerifySmtp [.response 450 "greylisted", .response 250 "ok"] true
        ["mx.acme-widgets.example".data]).1.valid = true
    ∧ (fastVerifySmtp [.response 450 "greylisted", .response 250 "ok"] true
        ["mx.acme-widgets.example".data]).2 = 2 := by
  exact ⟨rfl, rfl, rfl, rfl⟩

/-- C4 amended: the one-retry greylisting behaviour exists only when
`verify_smtp` is called with `retry_greylisting=True` (retry after
`GREYLISTING_RETRY_DELAY = 0.0`): a 250 on retry is a deliverable result and
a second greylist response returns status `"greylisted"`, after exactly two
probes.  The wired pipeline passes `retry_greylisting=False` (and the strict
validator has `RETRY_COUNT = 0`), so a greylisted first response gets no
retry and the address classifies `"unknown"` after one probe in the fast
pipeline — and NEUTRAL in the strict verifier — never invalid. -/
theorem C4_greylist_retry_semantics :
    (∀ (c1 c2 : Nat) (m1 m2 : String) (hosts : List (List Char)),
      hosts.isEmpty = false →
      (c1 = 450 ∨ c1 = 451 ∨ c1 = 421) →
      ((fastVerifySmtp [.response c1 m1, .response 250 m2] true hosts).1.valid = true
        ∧ (fastVerifySmtp [.response c1 m1, .response 250 m2] true hosts).2 = 2)
      ∧ ((c2 = 450 ∨ c2 = 451 ∨ c2 = 421) →
        (fastVerifySmtp [.response c1 m1, .response c2 m2] true hosts).1.status = "greylisted"
        ∧ (fastVerifySmtp [.response c1 m1, .response c2 m2] true hosts).2 = 2))
    ∧ (∀ (env : FastEnv) (e : List Char) (c : Nat) (m : String),
      (fastSyntaxCheck (pyNormalize e)).ok = true →
      check_blacklist_fast env.blacklist (fastSyntaxCheck (pyNormalize e)).domain = false →
      check_spamtrap_fast env.spamtrap (pyNormalize e) (fastSyntaxCheck (pyNormalize e)).domain = false →
      check_disposable_fast env.disposable (fastSyntaxCheck (pyNormalize e)).domain = false →
      env.mx.isEmpty = false →
      is_trusted_provider (fastSyntaxCheck (pyNormalize e)).domain = false →
      env.targetScript.headD (ProbeOutcome.otherError "no outcome") = ProbeOutcome.response c m →
      (c = 450 ∨ c = 451 ∨ c = 421) →
      (fastValidateSingle env e).2 = 1
      ∧ (fastValidateSingle env e).1.status = "unknown")
    ∧ (∀ (c : Nat) (m : String),
      (c = 450 ∨ c = 451 ∨ c = 421) →
      inboxFullKeywords.any (fun kw => strContains kw (String.mk (pyLower m.data))) = false →
      (strictVerifySingleMx (.response c m)).status = "NEUTRAL"
      ∧ (strictVerifySingleMx (.response c m)).retry_recommended = true) := by
  refine ⟨?_, ?_, ?_⟩
  · intro c1 c2 m1 m2 hosts hmxe hc1
    refine ⟨?_, fun hc2 => ?_⟩
    · rcases hc1 with h | h | h <;>
        · subst h
          unfold fastVerifySmtp
          rw [if_bool_false hmxe]
          exact ⟨rfl, rfl⟩
    · rcases hc1 with h | h | h <;> rcases hc2 with h2 | h2 | h2 <;>
        · subst h
          subst h2
          unfold fastVerifySmtp
          rw [if_bool_false hmxe]
          exact ⟨rfl, rfl⟩
  · intro env e c m hok hbl htrap hdisp hmxe htr hhead hc
    have hV : fastVerifySmtp env.targetScript false env.mx
        = (fastInterpretCode c m, 1) := by
      rcases hc with h | h | h <;>
        · subst h
          unfold fastVerifySmtp
          rw [if_bool_false hmxe, hhead]
          rfl
    unfold fastValidateSingle
    rw [hok]
    unfold fastAfterSyntax
    rw [if_bool_false (show (!true) = false from rfl), if_bool_false hbl,
      if_bool_false htrap, if_bool_false hdisp, if_bool_false hmxe, if_bool_false htr, hV]
    rcases hc with h | h | h <;>
      · subst h
        exact ⟨rfl, rfl⟩
  · intro c m hc hkw
    have hres : strictInterpretResponse c m
        = ("NEUTRAL",
            if c = 450 then "Mailbox unavailable (greylisted or temp fail)"
            else if c = 451 then "Local error in processing (greylisted)"
            else "Service temporarily unavailable (throttled)", true) := by
      rcases hc with h | h | h <;>
        · subst h
          unfold strictInterpretResponse
          rw [if_bool_false hkw]
          rfl
    have hred : strictVerifySingleMx (.response c m)
        = { smtp_attempted := true, smtp_code := some c, smtp_message := m,
            status := (strictInterpretResponse c m).1,
            reason := (strictInterpretResponse c m).2.1,
            retry_recommended := (strictInterpretResponse c m).2.2 } := rfl
    rw [hred, hres]
    exact ⟨rfl, rfl⟩

/-- Witness for C4 amended at concrete scripts. -/
theorem C4_greylist_retry_semantics_witness :
    ((fastVerifySmtp [.response 450 "try later", .response 250 "ok"] true
        ["mx.example".data]).1.valid = true)
    ∧ ((fastValidateSingle { mx := ["mx.acme-widgets.example".data], targetScript := [.response 451 "greylisted"] }
        "bob@acme-widgets.example".data).2 = 1
      ∧ (fastValidateSingle { mx := ["mx.acme-widgets.example".data], targetScript := [.response 451 "greylisted"] }
        "bob@acme-widgets.example".data).1.status = "unknown")
    ∧ (strictVerifySingleMx (.response 421 "busy")).status = "NEUTRAL" :=
  ⟨(((C4_greylist_retry_semantics.1 450 0 "try later" "ok" ["mx.example".data]
      rfl (Or.inl rfl)).1).1),
   C4_greylist_retry_semantics.2.1
     { mx := ["mx.acme-widgets.example".data], targetScript := [.response 451 "greylisted"] }
     "bob@acme-widgets.example".data 451 "greylisted"
     (by decide) (by decide) (by decide) (by decide) rfl (by decide) rfl
     (Or.inr (Or.inl rfl)),
   (C4_greylist_retry_semantics.2.2 421 "busy" (Or.inr (Or.inr rfl)) (by decide)).1⟩


/-- C5: in the fast validator, when the target probe answers 250 and both
random-local-part catch-all probes also answer 250, the address's terminal
status is `catch_all` (with the catch-all flag set), not the positive
`safe` status. -/
theorem C5_catchall_overrides_positive (env : FastEnv) (e : List Char) (m m1 m2 : String)
    (hok : (fastSyntaxCheck (pyNormalize e)).ok = true)
    (hbl : check_blacklist_fast env.blacklist (fastSyntaxCheck (pyNormalize e)).domain = false)
    (htrap : check_spamtrap_fast env.spamtrap (pyNormalize e) (fastSyntaxCheck (pyNormalize e)).domain = false)
    (hdisp : check_disposable_fast env.disposable (fastSyntaxCheck (pyNormalize e)).domain = false)
    (hmxe : env.mx.isEmpty = false)
    (htr : is_trusted_provider (fastSyntaxCheck (pyNormalize e)).domain = false)
    (hh : env.targetScript.headD (ProbeOutcome.otherError "no outcome") = ProbeOutcome.response 250 m)
    (hh1 : env.catchScript1.headD (ProbeOutcome.otherError "no outcome") = ProbeOutcome.response 250 m1)
    (hh2 : env.catchScript2.headD (ProbeOutcome.otherError "no outcome") = ProbeOutcome.response 250 m2) :
    (fastValidateSingle env e).1.status = "catch_all"
    ∧ (fastValidateSingle env e).1.is_catch_all = true
    ∧ (fastValidateSingle env e).1.status ≠ "safe" := by
  have hV : fastVerifySmtp env.targetScript false env.mx
      = (⟨true, "deliverable", 250, false⟩, 1) := by
    unfold fastVerifySmtp
    rw [if_bool_false hmxe, hh]
    rfl
  have hC1 : fastVerifySmtp env.catchScript1 false env.mx
      = (⟨true, "deliverable", 250, false⟩, 1) := by
    unfold fastVerifySmtp
    rw [if_bool_false hmxe, hh1]
    rfl
  have hC2 : fastVerifySmtp env.catchScript2 false env.mx
      = (⟨true, "deliverable", 250, false⟩, 1) := by
    unfold fastVerifySmtp
    rw [if_bool_false hmxe, hh2]
    rfl
  have hCA : fastCheckCatchall env.catchScript1 env.catchScript2 env.mx = (true, 2) := by
    unfold fastCheckCatchall
    rw [hC1, hC2]
    rfl
  have hstat : (fastValidateSingle env e).1.status = "catch_all" := by
    unfold fastValidateSingle
    rw [hok]
    unfold fastAfterSyntax
    rw [if_bool_false (show (!true) = false from rfl), if_bool_false hbl,
      if_bool_false htrap, if_bool_false hdisp, if_bool_false hmxe, if_bool_false htr, hV]
    unfold fastSmtpStep
    rw [hCA]
    rfl
  have hca : (fastValidateSingle env e).1.is_catch_all = true := by
    unfold fastValidateSingle
    rw [hok]
    unfold fastAfterSyntax
    rw [if_bool_false (show (!true) = false from rfl), if_bool_false hbl,
      if_bool_false htrap, if_bool_false hdisp, if_bool_false hmxe, if_bool_false htr, hV]
    unfold fastSmtpStep
    rw [hCA]
    rfl
  refine ⟨hstat, hca, ?_⟩
  rw [hstat]
  decide

/-- Witness for C5 at a concrete probe environment. -/
theorem C5_catchall_overrides_positive_witness :
    (fastValidateSingle { mx := ["mx.acme-widgets.example".data], targetScript := [.response 250 "ok"], catchScript1 := [.response 250 "ok"], catchScript2 := [.response 250 "ok"] }
      "bob@acme-widgets.example".data).1.status = "catch_all" :=
  (C5_catchall_overrides_positive
    { mx := ["mx.acme-widgets.example".data], targetScript := [.response 250 "ok"], catchScript1 := [.response 250 "ok"], catchScript2 := [.response 250 "ok"] }
    "bob@acme-widgets.example".data "ok" "ok" "ok"
    (by decide) (by decide) (by decide) (by decide) rfl (by decide) rfl rfl rfl).1


/-- The async host loop never decreases its attempt counter. -/
theorem asyncCheckSmtpGo_ge (hosts : List (List Char)) :
    ∀ (script : List ProbeOutcome) (n : Nat), n ≤ (asyncCheckSmtpGo hosts script n).2 := by
  induction hosts with
  | nil =>
    intro script n
    exact Nat.le_refl n
  | cons h hs ih =>
    intro script n
    unfold asyncCheckSmtpGo
    split
    · exact Nat.le_succ n
    · exact Nat.le_trans (Nat.le_succ n) (ih (script.drop 1) (n + 1))

/-- With at least one MX host, the async SMTP check performs at least one
probe attempt. -/
theorem asyncCheckSmtp_ge_one (script : List ProbeOutcome) (hosts : List (List Char))
    (hne : hosts.isEmpty = false) : 1 ≤ (asyncCheckSmtp script hosts).2 := by
  cases hosts with
  | nil => exact absurd hne (by decide)
  | cons h t =>
    show 1 ≤ (asyncCheckSmtpGo ((h :: t).take 2) script 0).2
    have : (h :: t).take 2 = h :: t.take 1 := rfl
    rw [this]
    unfold asyncCheckSmtpGo
    split
    · exact Nat.le_refl 1
    · exact asyncCheckSmtpGo_ge (t.take 1) (script.drop 1) 1

/-- The async SMTP interpretation passes the probe count through
unchanged. -/
theorem asyncSmtpStep_probes (env : AsyncEnv) (email domain : List Char)
    (s : AsyncSmtpRes) (n : Nat) : (asyncSmtpStep env email domain s n).2 = n := by
  unfold asyncSmtpStep
  split
  · rfl
  split
  · rfl
  split
  · rfl
  · rfl

/-- C6 counterexample: the cited async validator probes trusted-provider
domains too — for an address at `gmail.com` (on its `TRUSTED_PROVIDERS`
list) one probe is attempted and the protocol response code (250) is
recorded, refuting "no protocol probe is attempted (response code
absent)". -/
theorem C6_trusted_probe_counterexample :
    (asyncValidateSingle { mx := ["gmail-smtp-in.l.google.com".data], script := [.response 250 "ok"] }
        "somebody123@gmail.com".data).2 = 1
    ∧ (asyncValidateSingle { mx := ["gmail-smtp-in.l.google.com".data], script := [.response 250 "ok"] }
        "somebody123@gmail.com".data).1.smtp_code = 250
    ∧ "gmail.com".data ∈ asyncTrustedProviders := by
  exact ⟨rfl, rfl, by decide⟩

/-- C6 amended: the fast validator implements the claim — for a
trusted-provider domain no probe is attempted (probe count 0, response code
0/absent) and the status is `safe` (or `role` for role accounts) when the
provider's username rule passes, `invalid` when it fails, with
`smtp_status = "skipped_trusted_provider"` in the pass case; the async
validator instead always probes (at least one attempt whenever MX hosts
exist), and optimistically marks a trusted domain `Valid` only when the
probe is not a definitive rejection. -/
theorem C6_trusted_provider_shortcircuit :
    (∀ (env : FastEnv) (e : List Char),
      (fastSyntaxCheck (pyNormalize e)).ok = true →
      check_blacklist_fast env.blacklist (fastSyntaxCheck (pyNormalize e)).domain = false →
      check_spamtrap_fast env.spamtrap (pyNormalize e) (fastSyntaxCheck (pyNormalize e)).domain = false →
      check_disposable_fast env.disposable (fastSyntaxCheck (pyNormalize e)).domain = false →
      env.mx.isEmpty = false →
      is_trusted_provider (fastSyntaxCheck (pyNormalize e)).domain = true →
      (fastValidateSingle env e).2 = 0
      ∧ (fastValidateSingle env e).1.smtp_code = 0
      ∧ (providerUsernameValid (fastSyntaxCheck (pyNormalize e)).domain
          (fastSyntaxCheck (pyNormalize e)).localPart = false →
          (fastValidateSingle env e).1.status = "invalid")
      ∧ (providerUsernameValid (fastSyntaxCheck (pyNormalize e)).domain
          (fastSyntaxCheck (pyNormalize e)).localPart = true →
          (fastValidateSingle env e).1.status
            = (if check_role_fast (fastSyntaxCheck (pyNormalize e)).localPart then "role" else "safe")
          ∧ (fastValidateSingle env e).1.smtp_status = "skipped_trusted_provider"))
    ∧ (∀ (env : AsyncEnv) (e : List Char),
      (rfcSyntaxCheck (pyNormalize e)).ok = true →
      containsChar '@' (pyNormalize e) = true →
      env.mx.isEmpty = false →
      asyncCheckBlacklist env.blacklist (((pyNormalize e).dropWhile (· ≠ '@')).drop 1) = false →
      asyncCheckDisposable env.disposable (((pyNormalize e).dropWhile (· ≠ '@')).drop 1) = false →
      1 ≤ (asyncValidateSingle env e).2
      ∧ ((asyncCheckSmtp env.script env.mx).1 = ⟨false, "connection_failed", 0⟩ →
        asyncTrustedProviders.contains (((pyNormalize e).dropWhile (· ≠ '@')).drop 1) = true →
        (asyncValidateSingle env e).1.status
          = (if is_role_based (pyNormalize e) then "Role-Based" else "Valid"))) := by
  constructor
  · intro env e hok hbl htrap hdisp hmxe htrust
    have hred : fastValidateSingle env e
        = fastTrustedBranch env (pyNormalize e) (fastSyntaxCheck (pyNormalize e)).localPart
            (fastSyntaxCheck (pyNormalize e)).domain := by
      unfold fastValidateSingle
      rw [hok]
      unfold fastAfterSyntax
      rw [if_bool_false (show (!true) = false from rfl), if_bool_false hbl,
        if_bool_false htrap, if_bool_false hdisp, if_bool_false hmxe, if_bool_true htrust]
    rw [hred]
    refine ⟨?_, ?_, ?_, ?_⟩
    · unfold fastTrustedBranch
      split
      · rfl
      · rfl
    · unfold fastTrustedBranch
      split
      · rfl
      · rfl
    · intro hfail
      unfold fastTrustedBranch
      rw [hfail, if_bool_true (show (!false) = true from rfl)]
      rfl
    · intro hpass
      unfold fastTrustedBranch
      rw [hpass, if_bool_false (show (!true) = false from rfl)]
      exact ⟨rfl, rfl⟩
  · intro env e hok hat hmxe hbl hdisp
    have hred : asyncValidateSingle env e
        = asyncSmtpStep env (pyNormalize e) (((pyNormalize e).dropWhile (· ≠ '@')).drop 1)
            (asyncCheckSmtp env.script env.mx).1 (asyncCheckSmtp env.script env.mx).2 := by
      unfold asyncValidateSingle
      rw [hok, hat]
      unfold asyncAfterSyntax
      rw [if_bool_false (show (!true) = false from rfl),
        if_bool_false (show (!true) = false from rfl), if_bool_false hmxe,
        if_bool_false hbl, if_bool_false hdisp]
    constructor
    · rw [hred, asyncSmtpStep_probes]
      exact asyncCheckSmtp_ge_one env.script env.mx hmxe
    · intro hsm htr
      rw [hred, hsm]
      unfold asyncSmtpStep
      split
      · rename_i hcond
        exact absurd hcond (by decide)
      split
      · rename_i h1 h2
        exact absurd h2 (by decide)
      rfl

/-- Witness for C6 amended at concrete environments. -/
theorem C6_trusted_provider_shortcircuit_witness :
    ((fastValidateSingle { mx := ["mx.google.com".data] } "johnsmith@gmail.com".data).2 = 0
      ∧ (fastValidateSingle { mx := ["mx.google.com".data] } "johnsmith@gmail.com".data).1.status = "safe")
    ∧ (1 ≤ (asyncValidateSingle { mx := ["gmail-smtp-in.l.google.com".data], script := [.connectTimeout] }
        "somebody123@gmail.com".data).2
      ∧ (asyncValidateSingle { mx := ["gmail-smtp-in.l.google.com".data], script := [.connectTimeout] }
        "somebody123@gmail.com".data).1.status = "Valid") :=
  ⟨⟨(C6_trusted_provider_shortcircuit.1 { mx := ["mx.google.com".data] }
      "johnsmith@gmail.com".data (by decide) (by decide) (by decide) (by decide) rfl (by decide)).1,
    by
      have h := ((C6_trusted_provider_shortcircuit.1 { mx := ["mx.google.com".data] }
        "johnsmith@gmail.com".data (by decide) (by decide) (by decide) (by decide) rfl
        (by decide)).2.2.2 (by decide)).1
      rw [h]
      decide⟩,
   ⟨(C6_trusted_provider_shortcircuit.2 { mx := ["gmail-smtp-in.l.google.com".data], script := [.connectTimeout] }
      "somebody123@gmail.com".data (by decide) (by decide) rfl (by decide) (by decide)).1,
    by
      have h := (C6_trusted_provider_shortcircuit.2
        { mx := ["gmail-smtp-in.l.google.com".data], script := [.connectTimeout] }
        "somebody123@gmail.com".data (by decide) (by decide) rfl (by decide) (by decide)).2
        rfl (by decide)
      rw [h]
      decide⟩⟩


/-- Flattening the chunked batch recovers the original list. -/
theorem chunksOfAux_flatten : ∀ (fuel n : Nat) (l : List (List Char)),
    l.length ≤ fuel → n ≠ 0 → (chunksOfAux fuel n l).flatten = l := by
  intro fuel
  induction fuel with
  | zero =>
    intro n l hl hn
    have : l = [] := List.eq_nil_of_length_eq_zero (Nat.le_zero.mp hl)
    subst this
    rfl
  | succ fuel ih =>
    intro n l hl hn
    cases l with
    | nil => rfl
    | cons x xs =>
      show ((x :: xs).take n :: chunksOfAux fuel n ((x :: xs).drop n)).flatten = x :: xs
      rw [List.flatten_cons, ih n ((x :: xs).drop n) ?_ hn]
      · exact List.take_append_drop n (x :: xs)
      · rw [List.length_drop]
        simp only [List.length_cons] at hl ⊢
        omega

theorem chunksOf_flatten (n : Nat) (hn : n ≠ 0) (l : List (List Char)) :
    (chunksOf n l).flatten = l := by
  unfold chunksOf
  rw [if_neg hn]
  exact chunksOfAux_flatten l.length n l (Nat.le_refl _) hn

/-- The chunked async bulk loop is the map of its per-address step over the
deduplicated input. -/
theorem asyncValidateBulk_eq_map (f : List Char → Except String VResult)
    (emails : List (List Char)) :
    asyncValidateBulk f emails = (normalizeBatch emails).map (fun e =>
      match f e with
      | .error msg => { email := e, status := "Error", reason := msg, is_valid := false }
      | .ok r => r) := by
  unfold asyncValidateBulk
  rw [← List.map_flatten, chunksOf_flatten 500 (by decide)]

/-- Every element of the deduplicated list occurs in the original. -/
theorem pyDedupAux_subset : ∀ (fuel : Nat) (l : List (List Char)) (a : List Char),
    a ∈ pyDedupAux fuel l → a ∈ l := by
  intro fuel
  induction fuel with
  | zero =>
    intro l a ha
    cases l with
    | nil => exact absurd ha (List.not_mem_nil a)
    | cons x xs => exact ha
  | succ fuel ih =>
    intro l a ha
    cases l with
    | nil => exact absurd ha (List.not_mem_nil a)
    | cons x xs =>
      rcases List.mem_cons.mp ha with h | h
      · exact h ▸ List.mem_cons_self x xs
      · exact List.mem_cons_of_mem x (List.mem_of_mem_filter (ih _ a h))

theorem pyDedup_subset (l : List (List Char)) (a : List Char) :
    a ∈ pyDedup l → a ∈ l :=
  pyDedupAux_subset l.length l a

/-- First-occurrence deduplication produces a duplicate-free list. -/
theorem pyDedupAux_nodup : ∀ (fuel : Nat) (l : List (List Char)),
    l.length ≤ fuel → (pyDedupAux fuel l).Nodup := by
  intro fuel
  induction fuel with
  | zero =>
    intro l hl
    have : l = [] := List.eq_nil_of_length_eq_zero (Nat.le_zero.mp hl)
    subst this
    exact List.nodup_nil
  | succ fuel ih =>
    intro l hl
    cases l with
    | nil => exact List.nodup_nil
    | cons x xs =>
      show (x :: pyDedupAux fuel (xs.filter (· ≠ x))).Nodup
      refine List.nodup_cons.mpr ⟨?_, ih _ ?_⟩
      · intro hx
        have hmem := pyDedupAux_subset fuel _ x hx
        have hpred := List.of_mem_filter hmem
        simp at hpred
      · have := xs.length_filter_le (· ≠ x)
        simp only [List.length_cons] at hl
        omega

theorem pyDedup_nodup (l : List (List Char)) : (pyDedup l).Nodup :=
  pyDedupAux_nodup l.length l (Nat.le_refl _)

/-- C8 counterexample: an address whose validation raises is converted into
a result entry, but not with the `"unknown"` status the claim names: the
async bulk path emits status `"Error"`, and the fast bulk path intends
`"Error"` but the trailing `**self._init_result(...)` unpacking overrides
the literal keys, leaving status `"invalid"` with an empty reason (the
exception message is lost). -/
theorem C8_error_status_counterexample :
    (asyncValidateBulk (fun _ => .error "boom") ["bad@x.com".data]).map (fun r => r.status)
      = ["Error"]
    ∧ ((asyncValidateBulk (fun _ => .error "boom") ["bad@x.com".data]).headD {}).status
      ≠ "unknown"
    ∧ ((asyncValidateBulk (fun _ => .error "boom") ["bad@x.com".data]).headD {}).status
      ≠ "Unknown"
    ∧ (fastValidateBulk (fun _ => .error "boom") ["bad@x.com".data]).map (fun r => r.status)
      = ["invalid"]
    ∧ ((fastValidateBulk (fun _ => .error "boom") ["bad@x.com".data]).headD {}).reason
      = ""
    ∧ ((fastValidateBulk (fun _ => .error "boom") ["bad@x.com".data]).headD {}).status
      ≠ "unknown" := by
  exact ⟨rfl, by decide, by decide, rfl, rfl, by decide⟩

/-- C8 amended: all three bulk validators return exactly one result per
deduplicated normalized input (same order, no omissions, no duplicates),
and a per-address exception never aborts the batch: it is converted into a
result entry — with status `"Error"` and the exception message as reason in
the async bulk path, with status `"invalid"` and an empty reason in the
fast bulk path (the literal `"Error"`/message keys are overridden by the
`**_init_result` unpacking written after them), and as a finalized
`"NEUTRAL"` entry in the strict bulk path. -/
theorem C8_bulk_one_result_per_address :
    (∀ (f : List Char → Except String VResult) (emails : List (List Char)),
      (∀ e r, f e = .ok r → r.email = e) →
      (asyncValidateBulk f emails).map (fun r => r.email) = normalizeBatch emails
      ∧ (normalizeBatch emails).Nodup
      ∧ (∀ e msg, e ∈ normalizeBatch emails → f e = .error msg →
          ({ email := e, status := "Error", reason := msg, is_valid := false } : VResult)
            ∈ asyncValidateBulk f emails))
    ∧ (∀ (f : List Char → Except String VResult) (emails : List (List Char)),
      (∀ e r, f e = .ok r → r.email = e) →
      (fastValidateBulk f emails).map (fun r => r.email) = normalizeBatch emails
      ∧ (∀ e msg, e ∈ normalizeBatch emails → f e = .error msg →
          fastBulkErrorEntry e msg ∈ fastValidateBulk f emails
          ∧ (fastBulkErrorEntry e msg).status = "invalid"
          ∧ (fastBulkErrorEntry e msg).reason = ""))
    ∧ (∀ (g : List Char → Except String StrictResult) (emails : List (List Char)),
      (∀ e r, g e = .ok r → r.email = e) →
      (strictValidateBulk g emails).map (fun r => r.email) = normalizeBatch emails
      ∧ (∀ e msg, e ∈ normalizeBatch emails → g e = .error msg →
          strictBulkErrorEntry e msg ∈ strictValidateBulk g emails
          ∧ (strictBulkErrorEntry e msg).status = "NEUTRAL"
          ∧ (strictBulkErrorEntry e msg).is_unknown = true)) := by
  refine ⟨?_, ?_, ?_⟩
  · intro f emails hok
    refine ⟨?_, pyDedup_nodup _, ?_⟩
    · rw [asyncValidateBulk_eq_map, List.map_map]
      have : ∀ a ∈ normalizeBatch emails,
          ((fun r => r.email) ∘ fun e =>
            match f e with
            | .error msg => ({ email := e, status := "Error", reason := msg, is_valid := false } : VResult)
            | .ok r => r) a = id a := by
        intro a _
        cases hf : f a with
        | error msg => simp [hf]
        | ok r => simp [hf, hok a r hf]
      rw [List.map_congr_left this, List.map_id]
    · intro e msg hmem hf
      rw [asyncValidateBulk_eq_map]
      have h1 := List.mem_map_of_mem (fun e =>
        match f e with
        | .error msg => ({ email := e, status := "Error", reason := msg, is_valid := false } : VResult)
        | .ok r => r) hmem
      have h2 : (match f e with
          | .error msg => ({ email := e, status := "Error", reason := msg, is_valid := false } : VResult)
          | .ok r => r) ∈ (normalizeBatch emails).map (fun e =>
            match f e with
            | .error msg => ({ email := e, status := "Error", reason := msg, is_valid := false } : VResult)
            | .ok r => r) := h1
      rw [hf] at h2
      exact h2
  · intro f emails hok
    constructor
    · unfold fastValidateBulk
      rw [List.map_map]
      have : ∀ a ∈ normalizeBatch emails,
          ((fun r => r.email) ∘ fun e =>
            match f e with
            | .error msg => fastBulkErrorEntry e msg
            | .ok r => r) a = id a := by
        intro a _
        cases hf : f a with
        | error msg => simp [hf, fastBulkErrorEntry, fastInitResult]
        | ok r => simp [hf, hok a r hf]
      rw [List.map_congr_left this, List.map_id]
    · intro e msg hmem hf
      refine ⟨?_, rfl, rfl⟩
      unfold fastValidateBulk
      have h1 := List.mem_map_of_mem (fun e =>
        match f e with
        | .error msg => fastBulkErrorEntry e msg
        | .ok r => r) hmem
      have h2 : (match f e with
          | .error msg => fastBulkErrorEntry e msg
          | .ok r => r) ∈ (normalizeBatch emails).map (fun e =>
            match f e with
            | .error msg => fastBulkErrorEntry e msg
            | .ok r => r) := h1
      rw [hf] at h2
      exact h2
  · intro g emails hok
    constructor
    · unfold strictValidateBulk
      rw [List.map_map]
      have : ∀ a ∈ normalizeBatch emails,
          ((fun r => r.email) ∘ fun e =>
            match g e with
            | .error msg => strictBulkErrorEntry e msg
            | .ok r => r) a = id a := by
        intro a _
        cases hg : g a with
        | error msg => simp [hg, strictBulkErrorEntry]; rfl
        | ok r => simp [hg, hok a r hg]
      rw [List.map_congr_left this, List.map_id]
    · intro e msg hmem hg
      refine ⟨?_, rfl, rfl⟩
      unfold strictValidateBulk
      have h1 := List.mem_map_of_mem (fun e =>
        match g e with
        | .error msg => strictBulkErrorEntry e msg
        | .ok r => r) hmem
      have h2 : (match g e with
          | .error msg => strictBulkErrorEntry e msg
          | .ok r => r) ∈ (normalizeBatch emails).map (fun e =>
            match g e with
            | .error msg => strictBulkErrorEntry e msg
            | .ok r => r) := h1
      rw [hg] at h2
      exact h2

/-- Witness for C8 amended with a validator that raises on every address. -/
theorem C8_bulk_one_result_per_address_witness :
    (asyncValidateBulk (fun _ => .error "boom") ["Bad@X.com ".data]).map (fun r => r.email)
      = normalizeBatch ["Bad@X.com ".data]
    ∧ ({ email := "bad@x.com".data, status := "Error", reason := "boom", is_valid := false } : VResult)
      ∈ asyncValidateBulk (fun _ => .error "boom") ["Bad@X.com ".data]
    ∧ (fastValidateBulk (fun _ => .error "boom") ["Bad@X.com ".data]).map (fun r => r.email)
      = normalizeBatch ["Bad@X.com ".data]
    ∧ fastBulkErrorEntry "bad@x.com".data "boom"
      ∈ fastValidateBulk (fun _ => .error "boom") ["Bad@X.com ".data]
    ∧ (fastBulkErrorEntry "bad@x.com".data "boom").status = "invalid"
    ∧ (strictBulkErrorEntry "bad@x.com".data "boom").status = "NEUTRAL" :=
  ⟨(C8_bulk_one_result_per_address.1 (fun _ => .error "boom") ["Bad@X.com ".data]
      (fun _ r h => nomatch h)).1,
   (C8_bulk_one_result_per_address.1 (fun _ => .error "boom") ["Bad@X.com ".data]
      (fun _ r h => nomatch h)).2.2 "bad@x.com".data "boom" (by decide) rfl,
   (C8_bulk_one_result_per_address.2.1 (fun _ => .error "boom") ["Bad@X.com ".data]
      (fun _ r h => nomatch h)).1,
   ((C8_bulk_one_result_per_address.2.1 (fun _ => .error "boom") ["Bad@X.com ".data]
      (fun _ r h => nomatch h)).2 "bad@x.com".data "boom" (by decide) rfl).1,
   ((C8_bulk_one_result_per_address.2.1 (fun _ => .error "boom") ["Bad@X.com ".data]
      (fun _ r h => nomatch h)).2 "bad@x.com".data "boom" (by decide) rfl).2.1,
   ((C8_bulk_one_result_per_address.2.2 (fun _ => .error ("boom" : String)) ["Bad@X.com ".data]
      (fun _ r h => nomatch h)).2 "bad@x.com".data "boom" (by decide) rfl).2.1⟩

end EmailApp
